import Mathlib

/-!
Verification development for the Infraclininc parquet-storage repository.

The Python modules `parquet_storage/storage_engine.py`,
`parquet_storage/versioned_storage.py`, `parquet_storage/csv_ingestion.py`,
`parquet_storage/repository.py`, `parquet_storage/lambda_handler.py`,
`borelog_parser/parser.py` and `borelog_parser/lambda_handler.py` are shallowly
embedded below.  The mock object store (`write_file`/`read_file` over
`./mock_s3`) is modelled as an association list from keys to stored objects;
parquet serialisation (pyarrow + snappy) is modelled as storing the dataframe
value itself, and the pyarrow schema that `pa.Table.from_pandas` infers for a
dataframe is carried as a field of the dataframe value, since that inference
happens inside the external library.  Wall-clock timestamps and the random
uuid token are inputs supplied by the environment, so the corresponding
functions take them as explicit arguments.
-/

namespace Infraclininc

/-- Decidable equality for `Except`, used to state concrete evaluations of
the embedded operations. -/
instance {ε α : Type} [DecidableEq ε] [DecidableEq α] : DecidableEq (Except ε α) := fun a b =>
  match a, b with
  | .ok x, .ok y =>
    if h : x = y then .isTrue (congrArg Except.ok h)
    else .isFalse (fun hh => h (by injection hh))
  | .error x, .error y =>
    if h : x = y then .isTrue (congrArg Except.error h)
    else .isFalse (fun hh => h (by injection hh))
  | .ok _, .error _ => .isFalse (fun hh => by injection hh)
  | .error _, .ok _ => .isFalse (fun hh => by injection hh)

/-- Python exception kinds raised by the embedded code, carrying their
message strings (`error taxonomy` of the storage subsystem). -/
inductive PyErr where
  | valueError (msg : String)
  | fileExistsError (msg : String)
  | fileNotFoundError (msg : String)
  | ioError (msg : String)
  | unboundLocalError (msg : String)
  | attributeError (msg : String)
  | clientError (msg : String)
  deriving Repr, DecidableEq

/-- Arrow logical types used by the schema registry (`schemas.py` uses
`pa.string()`, `pa.int32()`, `pa.int64()`, `pa.float64()`, `pa.bool_()`,
`pa.timestamp("ms")` and `pa.list_(pa.string())`; `float32` is included for
the floating family of `_types_compatible`). -/
inductive DType where
  | string
  | int32
  | int64
  | float32
  | float64
  | boolean
  | timestampMs
  | listString
  deriving Repr, DecidableEq

/-- Rendering of a DType the way `str(pa_type)` prints it, used in
schema-validation error messages. -/
def DType.pyName : DType → String
  | .string => "string"
  | .int32 => "int32"
  | .int64 => "int64"
  | .float32 => "float"
  | .float64 => "double"
  | .boolean => "bool"
  | .timestampMs => "timestamp[ms]"
  | .listString => "list<item: string>"

/-- Predicate `pa.types.is_string`. -/
def DType.isString : DType → Bool
  | .string => true
  | _ => false

/-- Predicate `pa.types.is_integer`. -/
def DType.isInteger : DType → Bool
  | .int32 => true
  | .int64 => true
  | _ => false

/-- Predicate `pa.types.is_floating`. -/
def DType.isFloating : DType → Bool
  | .float32 => true
  | .float64 => true
  | _ => false

/-- Predicate `pa.types.is_boolean`. -/
def DType.isBoolean : DType → Bool
  | .boolean => true
  | _ => false

/-- Predicate `pa.types.is_timestamp`. -/
def DType.isTimestamp : DType → Bool
  | .timestampMs => true
  | _ => false

/-- Predicate `pa.types.is_list`. -/
def DType.isList : DType → Bool
  | .listString => true
  | _ => false

/-- One field of an arrow schema: name, logical type, nullable flag
(`pa.field(name, type, nullable=...)`). -/
structure Field where
  name : String
  dtype : DType
  nullable : Bool
  deriving Repr, DecidableEq

/-- An arrow schema is its ordered field list (`pa.schema([...])`). -/
abbrev Schema := List Field

/-- Embeds `_types_compatible` of `storage_engine.py`: exact match, or both
string-family, both integer-family, both floating-family, or both
timestamp-family. -/
def types_compatible (expected actual : DType) : Bool :=
  if expected = actual then true
  else if expected.isString && actual.isString then true
  else if expected.isInteger && actual.isInteger then true
  else if expected.isFloating && actual.isFloating then true
  else if expected.isTimestamp && actual.isTimestamp then true
  else false

/-- A scalar cell of a pandas dataframe / CSV row.  `null` stands for both
Python `None` and pandas `NaN` (the code only ever distinguishes them through
`pd.isna`, which is true for both). Python floats are carried with their exact
decimal value as a rational. -/
inductive Cell where
  | null
  | str (s : String)
  | int (n : Int)
  | bool (b : Bool)
  | float (q : ℚ)
  deriving Repr, DecidableEq

/-- A pandas DataFrame as the storage engine sees it: its row data plus the
arrow schema `pa.Table.from_pandas(df).schema` infers for it.  The inference
itself lives in pyarrow, outside the repository, so the schema travels with
the value. -/
structure Frame where
  schema : Schema
  rows : List (List Cell)
  deriving Repr, DecidableEq, Inhabited

/-- Embeds `ParquetStorageEngine.validate_schema`: field-count check, then
per-field name / type-compatibility / nullability checks, every offending
field collected into one ValueError. -/
def validate_schema (df : Frame) (expected : Schema) : Except PyErr Unit :=
  let actual := df.schema
  if actual.length ≠ expected.length then
    .error (.valueError ("Schema field count mismatch: expected " ++
      toString expected.length ++ " fields, got " ++ toString actual.length ++ " fields"))
  else
    let errors := (expected.zip actual).foldl (fun acc fp =>
      let acc := if fp.1.name ≠ fp.2.name then
          acc ++ ["Field name mismatch: expected '" ++ fp.1.name ++ "', got '" ++ fp.2.name ++ "'"]
        else acc
      let acc := if ¬ types_compatible fp.1.dtype fp.2.dtype then
          acc ++ ["Field '" ++ fp.1.name ++ "' type mismatch: expected " ++
            fp.1.dtype.pyName ++ ", got " ++ fp.2.dtype.pyName]
        else acc
      if fp.1.nullable ≠ fp.2.nullable then
        acc ++ ["Field '" ++ fp.1.name ++ "' nullability mismatch: expected nullable=" ++
          toString fp.1.nullable ++ ", got nullable=" ++ toString fp.2.nullable]
      else acc) []
    if errors.isEmpty then .ok ()
    else .error (.valueError ("Schema validation failed:\n" ++
      String.intercalate "\n" (errors.map (fun e => "  - " ++ e))))

/-- One history entry of the metadata document
(`_add_history_entry` of `versioned_storage.py`). -/
structure HistoryEntry where
  version : Nat
  status : String
  created_by : String
  created_at : String
  comment : String
  deriving Repr, DecidableEq, Inhabited

/-- The `metadata.json` document of a record (`versioned_storage.py`). -/
structure Metadata where
  record_id : String
  table_name : String
  current_version : Nat
  status : String
  created_by : String
  created_at : String
  approved_by : Option String
  approved_at : Option String
  rejected_by : Option String
  rejected_at : Option String
  history : List HistoryEntry
  deriving Repr, DecidableEq, Inhabited

/-- An object held by the mock object store: either parquet bytes (kept as the
dataframe they decode to) or a metadata JSON document (kept structurally). -/
inductive Obj where
  | frame (f : Frame)
  | meta (m : Metadata)
  deriving Repr, DecidableEq

/-- The mock object store under `./mock_s3`: an association from keys to
objects, one object per key. -/
abbrev Store := List (String × Obj)

/-- Lookup of a key in the store (`read_file`, returning `none` where Python
raises FileNotFoundError). -/
def storeGet : Store → String → Option Obj
  | [], _ => none
  | (k', v) :: rest, k => if k' = k then some v else storeGet rest k

/-- Write of a key in the store (`write_file`: the filesystem keeps one value
per key, so an existing key is replaced). -/
def storeSet : Store → String → Obj → Store
  | [], k, v => [(k, v)]
  | (k', v') :: rest, k, v =>
    if k' = k then (k', v) :: rest else (k', v') :: storeSet rest k v

/-- Python `x or default` on an optional string: `None` and the empty string
are falsy. -/
def pyOrStr (x : Option String) (d : String) : String :=
  match x with
  | some s => if s = "" then d else s
  | none => d

/-- Strip all leading slashes (`str.lstrip("/")`). -/
def lstripSlash (s : String) : String :=
  ⟨s.data.dropWhile (fun c => c = '/')⟩

/-- Strip all trailing slashes (`str.rstrip("/")`). -/
def rstripSlash (s : String) : String :=
  ⟨(s.data.reverse.dropWhile (fun c => c = '/')).reverse⟩

/-- Embeds `pathlib.Path(p).parent` for the relative, already-normalised keys
the engine builds (no repeated or trailing slashes, no `.`/`..` components):
the text before the last slash, and `"."` when there is no slash. -/
def pathParent (p : String) : String :=
  if p.data.contains '/' then
    ⟨((p.data.reverse.dropWhile (fun c => c ≠ '/')).drop 1).reverse⟩
  else "."

/-- Stem of a file name: the name with its last extension removed, the
extension dot not being the leading character (`pathlib.PurePath.stem`). -/
def stemOfName (name : String) : String :=
  let cs := name.data
  match cs.reverse.findIdx? (fun c => c = '.') with
  | none => name
  | some j =>
    let i := cs.length - 1 - j
    if i = 0 then name else ⟨cs.take i⟩

/-- Embeds `pathlib.Path(p).stem` for the engine's keys: stem of the last
path component. -/
def pathStem (p : String) : String :=
  stemOfName ⟨(p.data.reverse.takeWhile (fun c => c ≠ '/')).reverse⟩

/-- Embeds `ParquetStorageEngine._generate_unique_path` in local/mock mode:
the desired filename is augmented with the UTC timestamp and the 8-char uuid
token, then joined under the base directory.  `ts` and `uid` are the values
`datetime.utcnow().strftime("%Y%m%d_%H%M%S")` and `str(uuid.uuid4())[:8]`
produced by the environment. -/
def generate_unique_path (base_path filename ts uid : String) : String :=
  let safe_filename : String :=
    ⟨filename.data.map (fun c => if c = '/' ∨ c = '\\' then '_' else c)⟩
  let full_filename := safe_filename ++ "_" ++ ts ++ "_" ++ uid ++ ".parquet"
  base_path ++ "/" ++ full_filename

/-- Embeds `ParquetStorageEngine.write_parquet` followed by `_write_to_mock`
(mock mode).  Empty-dataframe and schema-validation errors are raised before
the write; for a non-partitioned write the target key is always
`_generate_unique_path` of the caller's directory and stem; the overwrite
guard checks that generated key; any exception inside the write block is
re-raised as IOError.  Returns the result together with the store after the
call. -/
def write_parquet (store : Store) (basePath path : String) (df : Frame)
    (expected_schema : Option Schema) (partition_cols : Option (List String))
    (overwrite : Bool) (ts uid : String) : Except PyErr String × Store :=
  if df.rows.isEmpty then
    (.error (.valueError "Cannot write empty DataFrame"), store)
  else
    match (match expected_schema with
           | some sch => validate_schema df sch
           | none => .ok ()) with
    | .error e => (.error e, store)
    | .ok () =>
      match partition_cols with
      | some _ =>
        let full_path := basePath ++ "/" ++ rstripSlash path
        (.ok full_path, storeSet store full_path (.frame df))
      | none =>
        let stem := pathStem path
        let filename := if stem = "" then "data" else stem
        let full_path := generate_unique_path (basePath ++ "/" ++ pathParent path) filename ts uid
        if ¬ overwrite ∧ (storeGet store full_path).isSome then
          (.error (.ioError ("Failed to write Parquet file: File already exists at " ++
            full_path ++ ". Set overwrite=True to overwrite.")), store)
        else
          (.ok full_path, storeSet store full_path (.frame df))

/-- Embeds `ParquetStorageEngine.read_parquet` with `_read_from_mock`: the key
is prefixed with the engine's base path; a missing key raises
FileNotFoundError, re-raised as IOError by the wrapper (a key holding
non-parquet bytes also fails inside the wrapper). -/
def read_parquet (store : Store) (basePath path : String) : Except PyErr Frame :=
  let full_path := basePath ++ "/" ++ lstripSlash path
  match storeGet store full_path with
  | some (.frame f) => .ok f
  | _ => .error (.ioError ("Failed to read Parquet file: File not found: " ++ full_path))

/-- Schema `SCHEMA_PROJECTS` of `schemas.py`, embedded verbatim. -/
def SCHEMA_PROJECTS : Schema :=
  [⟨"project_id", .string, false⟩,
   ⟨"name", .string, false⟩,
   ⟨"location", .string, true⟩,
   ⟨"created_by", .string, true⟩,
   ⟨"created_at", .timestampMs, true⟩,
   ⟨"updated_at", .timestampMs, true⟩]

/-- Schema `SCHEMA_CUSTOMERS` of `schemas.py`, embedded verbatim. -/
def SCHEMA_CUSTOMERS : Schema :=
  [⟨"customer_id", .string, false⟩,
   ⟨"name", .string, false⟩,
   ⟨"date_created", .timestampMs, true⟩]

/-- Schema `SCHEMA_BORELOG_VERSIONS` of `schemas.py`, embedded verbatim. -/
def SCHEMA_BORELOG_VERSIONS : Schema :=
  [⟨"borelog_id", .string, false⟩,
   ⟨"version_no", .int32, false⟩,
   ⟨"number", .string, true⟩,
   ⟨"msl", .string, true⟩,
   ⟨"boring_method", .string, true⟩,
   ⟨"hole_diameter", .float64, true⟩,
   ⟨"commencement_date", .timestampMs, true⟩,
   ⟨"completion_date", .timestampMs, true⟩,
   ⟨"standing_water_level", .float64, true⟩,
   ⟨"termination_depth", .float64, true⟩,
   ⟨"coordinate_latitude", .float64, true⟩,
   ⟨"coordinate_longitude", .float64, true⟩,
   ⟨"permeability_test_count", .string, true⟩,
   ⟨"spt_vs_test_count", .string, true⟩,
   ⟨"undisturbed_sample_count", .string, true⟩,
   ⟨"disturbed_sample_count", .string, true⟩,
   ⟨"water_sample_count", .string, true⟩,
   ⟨"stratum_description", .string, true⟩,
   ⟨"stratum_depth_from", .float64, true⟩,
   ⟨"stratum_depth_to", .float64, true⟩,
   ⟨"stratum_thickness_m", .float64, true⟩,
   ⟨"sample_event_type", .string, true⟩,
   ⟨"sample_event_depth_m", .float64, true⟩,
   ⟨"run_length_m", .float64, true⟩,
   ⟨"spt_blows_per_15cm", .float64, true⟩,
   ⟨"n_value_is_2131", .string, true⟩,
   ⟨"total_core_length_cm", .float64, true⟩,
   ⟨"tcr_percent", .float64, true⟩,
   ⟨"rqd_length_cm", .float64, true⟩,
   ⟨"rqd_percent", .float64, true⟩,
   ⟨"return_water_colour", .string, true⟩,
   ⟨"water_loss", .string, true⟩,
   ⟨"borehole_diameter", .float64, true⟩,
   ⟨"remarks", .string, true⟩,
   ⟨"created_by_user_id", .string, true⟩,
   ⟨"status", .string, false⟩,
   ⟨"approved_by", .string, true⟩,
   ⟨"approved_at", .timestampMs, true⟩,
   ⟨"created_at", .timestampMs, false⟩]

/-- Embeds `schemas.get_schema` / `SchemaRegistry.get` (case-insensitive
lookup) on the registry entries this development consults; the registry is
pure data and the remaining tables are never queried by a theorem below. -/
def get_schema (table_name : String) : Option Schema :=
  let lowered : String := ⟨table_name.data.map Char.toLower⟩
  if lowered = "projects" then some SCHEMA_PROJECTS
  else if lowered = "customers" then some SCHEMA_CUSTOMERS
  else if lowered = "borelog_versions" then some SCHEMA_BORELOG_VERSIONS
  else none

/-- Record status constants (`RecordStatus`). -/
def RecordStatus.draft : String := "draft"

/-- Record status constant `approved`. -/
def RecordStatus.approved : String := "approved"

/-- Record status constant `rejected`. -/
def RecordStatus.rejected : String := "rejected"

/-- Key of the record directory (`_get_record_path`). -/
def get_record_path (record_id : String) : String :=
  "records/" ++ record_id

/-- Key of the versions directory (`_get_versions_path`). -/
def get_versions_path (record_id : String) : String :=
  get_record_path record_id ++ "/versions"

/-- Key of one version file (`_get_version_file_path`). -/
def get_version_file_path (record_id : String) (version : Nat) : String :=
  get_versions_path record_id ++ "/v" ++ toString version ++ ".parquet"

/-- Key of the metadata document (`_get_metadata_path`).  Note the metadata
key is used directly against the mock store, without the engine's base-path
prefix, exactly as `_read_metadata`/`_write_metadata` do. -/
def get_metadata_path (record_id : String) : String :=
  get_record_path record_id ++ "/metadata.json"

/-- Embeds `VersionedParquetStorage._read_metadata`: a missing key or
undecodable document yields `None`. -/
def read_metadata (store : Store) (record_id : String) : Option Metadata :=
  match storeGet store (get_metadata_path record_id) with
  | some (.meta m) => some m
  | _ => none

/-- Embeds `VersionedParquetStorage._write_metadata` (overwrite allowed). -/
def write_metadata (store : Store) (record_id : String) (m : Metadata) : Store :=
  storeSet store (get_metadata_path record_id) (.meta m)

/-- Embeds `VersionedParquetStorage._add_history_entry`: appends one entry;
`now` is the `datetime.utcnow().isoformat() + "Z"` stamp taken inside the
helper, and the entry comment defaults to the empty string. -/
def add_history_entry (m : Metadata) (version : Nat) (status user_id : String)
    (comment : Option String) (now : String) : Metadata :=
  { m with history := m.history ++
      [⟨version, status, user_id, now, pyOrStr comment ""⟩] }

/-- Embeds `VersionedParquetStorage.create_record`.  `now` stands for the UTC
timestamp taken during the call, `ts`/`uid` for the environment inputs of the
data-file write.  Returns the result of the call and the store afterwards. -/
def create_record (store : Store) (basePath record_id : String) (df : Frame)
    (table_name created_by : String) (comment : Option String)
    (expected_schema : Option Schema) (now ts uid : String) :
    Except PyErr Metadata × Store :=
  match read_metadata store record_id with
  | some _ => (.error (.valueError ("Record " ++ record_id ++ " already exists")), store)
  | none =>
    let schRes : Except PyErr Schema :=
      match expected_schema with
      | some sch => .ok sch
      | none =>
        match get_schema table_name with
        | some sch => .ok sch
        | none => .error (.valueError ("No schema found for table: " ++ table_name))
    match schRes with
    | .error e => (.error e, store)
    | .ok sch =>
      match validate_schema df sch with
      | .error e => (.error e, store)
      | .ok () =>
        let version_path := get_version_file_path record_id 1
        match write_parquet store basePath version_path df (some sch) none false ts uid with
        | (.error e, store') => (.error e, store')
        | (.ok _, store') =>
          let metadata : Metadata :=
            { record_id := record_id
              table_name := table_name
              current_version := 1
              status := RecordStatus.draft
              created_by := created_by
              created_at := now
              approved_by := none
              approved_at := none
              rejected_by := none
              rejected_at := none
              history := [] }
          let metadata := add_history_entry metadata 1 RecordStatus.draft created_by
            (some (pyOrStr comment "Initial creation")) now
          (.ok metadata, write_metadata store' record_id metadata)

/-- Tail of `VersionedParquetStorage.update_record` after the metadata read:
everything the invocation does once it has observed metadata `m`.  Factoring
the read out lets racing invocations be run against the metadata they each
read. -/
def update_record_with_meta (store : Store) (basePath record_id : String)
    (m : Metadata) (df : Frame) (updated_by : String) (comment : Option String)
    (expected_schema : Option Schema) (now ts uid : String) :
    Except PyErr Metadata × Store :=
  let schRes : Except PyErr Schema :=
    match expected_schema with
    | some sch => .ok sch
    | none =>
      if m.table_name = "" then
        .error (.valueError "Cannot determine table name from metadata")
      else
        match get_schema m.table_name with
        | some sch => .ok sch
        | none => .error (.valueError ("No schema found for table: " ++ m.table_name))
  match schRes with
  | .error e => (.error e, store)
  | .ok sch =>
    match validate_schema df sch with
    | .error e => (.error e, store)
    | .ok () =>
      let new_version := m.current_version + 1
      let version_path := get_version_file_path record_id new_version
      match write_parquet store basePath version_path df (some sch) none false ts uid with
      | (.error e, store') => (.error e, store')
      | (.ok _, store') =>
        let metadata := { m with
          current_version := new_version
          status := RecordStatus.draft }
        let metadata := add_history_entry metadata new_version RecordStatus.draft updated_by
          (some (pyOrStr comment ("Updated to version " ++ toString new_version))) now
        (.ok metadata, write_metadata store' record_id metadata)

/-- Embeds `VersionedParquetStorage.update_record`: metadata read followed by
the update tail. -/
def update_record (store : Store) (basePath record_id : String) (df : Frame)
    (updated_by : String) (comment : Option String)
    (expected_schema : Option Schema) (now ts uid : String) :
    Except PyErr Metadata × Store :=
  match read_metadata store record_id with
  | none => (.error (.valueError ("Record " ++ record_id ++ " does not exist")), store)
  | some m =>
    update_record_with_meta store basePath record_id m df updated_by comment
      expected_schema now ts uid

/-- Tail of `VersionedParquetStorage.approve_record` after the metadata read:
status checks happen before any mutation; on success the status, approval
stamps and one history entry at the current version are written. -/
def approve_record_with_meta (store : Store) (record_id : String) (m : Metadata)
    (approved_by : String) (comment : Option String) (now : String) :
    Except PyErr Metadata × Store :=
  if m.status = RecordStatus.approved then
    (.error (.valueError ("Record " ++ record_id ++ " is already approved")), store)
  else if m.status = RecordStatus.rejected then
    (.error (.valueError ("Record " ++ record_id ++ " is rejected and cannot be approved")), store)
  else
    let metadata := { m with
      status := RecordStatus.approved
      approved_by := some approved_by
      approved_at := some now }
    let metadata := add_history_entry metadata m.current_version RecordStatus.approved
      approved_by (some (pyOrStr comment "Record approved")) now
    (.ok metadata, write_metadata store record_id metadata)

/-- Embeds `VersionedParquetStorage.approve_record`: metadata read followed by
the approval tail. -/
def approve_record (store : Store) (record_id approved_by : String)
    (comment : Option String) (now : String) : Except PyErr Metadata × Store :=
  match read_metadata store record_id with
  | none => (.error (.valueError ("Record " ++ record_id ++ " does not exist")), store)
  | some m => approve_record_with_meta store record_id m approved_by comment now

/-- Tail of `VersionedParquetStorage.reject_record` after the metadata read,
symmetric to approval. -/
def reject_record_with_meta (store : Store) (record_id : String) (m : Metadata)
    (rejected_by : String) (comment : Option String) (now : String) :
    Except PyErr Metadata × Store :=
  if m.status = RecordStatus.approved then
    (.error (.valueError ("Record " ++ record_id ++ " is approved and cannot be rejected")), store)
  else if m.status = RecordStatus.rejected then
    (.error (.valueError ("Record " ++ record_id ++ " is already rejected")), store)
  else
    let metadata := { m with
      status := RecordStatus.rejected
      rejected_by := some rejected_by
      rejected_at := some now }
    let metadata := add_history_entry metadata m.current_version RecordStatus.rejected
      rejected_by (some (pyOrStr comment "Record rejected")) now
    (.ok metadata, write_metadata store record_id metadata)

/-- Embeds `VersionedParquetStorage.reject_record`. -/
def reject_record (store : Store) (record_id rejected_by : String)
    (comment : Option String) (now : String) : Except PyErr Metadata × Store :=
  match read_metadata store record_id with
  | none => (.error (.valueError ("Record " ++ record_id ++ " does not exist")), store)
  | some m => reject_record_with_meta store record_id m rejected_by comment now

/-- Embeds `VersionedParquetStorage.get_specific_version`: reads the fixed
`v{version}.parquet` key through the engine; FileNotFoundError/IOError yield
`None`. -/
def get_specific_version (store : Store) (basePath record_id : String)
    (version : Nat) : Option Frame :=
  match read_parquet store basePath (get_version_file_path record_id version) with
  | .ok f => some f
  | .error _ => none

/-- Embeds `VersionedParquetStorage.get_latest_version`. -/
def get_latest_version (store : Store) (basePath record_id : String) : Option Frame :=
  match read_metadata store record_id with
  | none => none
  | some m => get_specific_version store basePath record_id m.current_version

/-- Lowercase a string (`str.lower()` for the ASCII range used here). -/
def py_lower (s : String) : String :=
  ⟨s.data.map Char.toLower⟩

/-- Strip leading and trailing whitespace (`str.strip()`). -/
def py_strip (s : String) : String :=
  ⟨((s.data.dropWhile Char.isWhitespace).reverse.dropWhile Char.isWhitespace).reverse⟩

/-- Numeric value of a digit list (most significant first). -/
def digitsToNat (ds : List Char) : Nat :=
  ds.foldl (fun acc c => acc * 10 + (c.toNat - '0'.toNat)) 0

/-- Embeds Python `int(s)` on a string: optional surrounding whitespace,
optional sign, then one or more digits consuming the whole input. -/
def pyIntParse (s : String) : Option Int :=
  let cs := (py_strip s).data
  let core : List Char → Option Nat := fun ds =>
    if ds.isEmpty then none
    else if ds.all Char.isDigit then some (digitsToNat ds)
    else none
  match cs with
  | '+' :: rest => (core rest).map Int.ofNat
  | '-' :: rest => (core rest).map (fun n => -(Int.ofNat n))
  | _ => (core cs).map Int.ofNat

/-- Decimal literal to an exact rational: integer digits, fraction digits
(built with `Rat.divInt` over integer arithmetic so that concrete values
evaluate inside the kernel). -/
def decimalToRat (intDs fracDs : List Char) : ℚ :=
  Rat.divInt (Int.ofNat (digitsToNat (intDs ++ fracDs))) (Int.ofNat (10 ^ fracDs.length))

/-- Embeds Python `float(s)` on the numeric-literal fragment exercised by the
parsers: optional sign, digits with optional fraction (or a leading-dot
fraction), optional decimal exponent.  The exact decimal value is kept as a
rational; special forms (`inf`, `nan`, underscore separators) are outside the
fragment and yield `none`. -/
def pyFloatParse (s : String) : Option ℚ :=
  let cs0 := (py_strip s).data
  let signed : Bool × List Char :=
    match cs0 with
    | '+' :: rest => (false, rest)
    | '-' :: rest => (true, rest)
    | _ => (false, cs0)
  let neg := signed.1
  let cs := signed.2
  let intDs := cs.takeWhile Char.isDigit
  let rest := cs.drop intDs.length
  let mantFrac : Option (List Char × List Char) :=
    match rest with
    | '.' :: rest2 =>
      let fracDs := rest2.takeWhile Char.isDigit
      if intDs.isEmpty ∧ fracDs.isEmpty then none
      else some (fracDs, rest2.drop fracDs.length)
    | _ => if intDs.isEmpty then none else some ([], rest)
  match mantFrac with
  | none => none
  | some (fracDs, rest2) =>
    let expPart : Option Int :=
      match rest2 with
      | [] => some 0
      | e :: r =>
        if e = 'e' ∨ e = 'E' then
          let esigned : Bool × List Char :=
            match r with
            | '+' :: r2 => (false, r2)
            | '-' :: r2 => (true, r2)
            | r2 => (false, r2)
          if esigned.2.isEmpty ∨ ¬ esigned.2.all Char.isDigit then none
          else
            let k := Int.ofNat (digitsToNat esigned.2)
            some (if esigned.1 then -k else k)
        else none
    match expPart with
    | none => none
    | some e =>
      let m := digitsToNat (intDs ++ fracDs)
      let escaled := e - (fracDs.length : Int)
      let num : Int := Int.ofNat (if 0 ≤ escaled then m * 10 ^ escaled.toNat else m)
      let den : Int := Int.ofNat (if 0 ≤ escaled then 1 else 10 ^ (-escaled).toNat)
      some (Rat.divInt (if neg then -num else num) den)

/-- Truncation toward zero (Python `int(float)`). -/
def ratTrunc (q : ℚ) : Int :=
  if 0 ≤ q then q.floor else -((-q).floor)

/-- Fraction digits of `rem / d` (a terminating decimal in every use here),
computed by long division with a fuel bound. -/
def ratFracDigitsNat : Nat → Nat → Nat → String
  | 0, _, _ => ""
  | fuel + 1, rem, d =>
    if rem = 0 then ""
    else toString (rem * 10 / d) ++ ratFracDigitsNat fuel (rem * 10 % d) d

/-- Rendering of a float cell the way Python `str()` prints the exact
decimals this development uses (`1.5`, `2.0`, ...). -/
def ratRepr (q : ℚ) : String :=
  let sign := if q.num < 0 then "-" else ""
  let a := q.num.natAbs
  let d := q.den
  let rem := a % d
  sign ++ toString (a / d) ++ "." ++ (if rem = 0 then "0" else ratFracDigitsNat 64 rem d)

/-- Round-half-even of `q * s` to an integer, computed on the numerator and
denominator (Python `round` and float formatting round this way on the exact
values used here). -/
def round_half_even_scaled (q : ℚ) (s : Nat) : Int :=
  let n := q.num * (s : Int)
  let d := (q.den : Int)
  let f := n.fdiv d
  let r2 := 2 * (n - f * d)
  if r2 < d then f
  else if d < r2 then f + 1
  else if f % 2 = 0 then f else f + 1

/-- Exact difference of two rationals, built with `Rat.divInt` over integer
arithmetic. -/
def rat_sub (a b : ℚ) : ℚ :=
  Rat.divInt (a.num * (b.den : Int) - b.num * (a.den : Int)) ((a.den : Int) * (b.den : Int))

/-- Truth of `pd.isna(value)` on a scalar cell (`NaN`/`None` only). -/
def Cell.isNa : Cell → Bool
  | .null => true
  | _ => false

/-- The check `value is None or pd.isna(value)` for a looked-up cell. -/
def cell_missing : Option Cell → Bool
  | none => true
  | some c => c.isNa

/-- Embeds Python `int(value)` on a cell: ints pass through, booleans map to
0/1, floats truncate toward zero, strings must parse as integer literals. -/
def pyIntOfCell : Cell → Option Int
  | .int n => some n
  | .bool b => some (if b then 1 else 0)
  | .float q => some (ratTrunc q)
  | .str s => pyIntParse s
  | .null => none

/-- Embeds Python `float(value)` on a cell. -/
def pyFloatOfCell : Cell → Option ℚ
  | .int n => some (n : ℚ)
  | .bool b => some (if b then 1 else 0)
  | .float q => some q
  | .str s => pyFloatParse s
  | .null => none

/-- Embeds Python `str(value)` on a cell. -/
def pyStrOfCell : Cell → String
  | .str s => s
  | .int n => toString n
  | .bool b => if b then "True" else "False"
  | .float q => ratRepr q
  | .null => "nan"

/-- Name of the Python type of a cell, used in error messages. -/
def py_type_name : Cell → String
  | .str _ => "str"
  | .int _ => "int"
  | .bool _ => "bool"
  | .float _ => "float"
  | .null => "float"

/-- Models the external `pd.to_datetime` call of the validator: native
numeric values are accepted, strings are accepted when they start with an
ISO-8601 date (`YYYY-MM-DD...`); everything else fails.  The actual parsing
lives in pandas, outside this repository. -/
def pd_to_datetime_ok : Cell → Bool
  | .int _ => true
  | .float _ => true
  | .str s =>
    let cs := s.data
    decide (cs.length ≥ 10)
      && (cs.take 4).all Char.isDigit
      && (cs.getD 4 ' ' == '-')
      && ((cs.drop 5).take 2).all Char.isDigit
      && (cs.getD 7 ' ' == '-')
      && ((cs.drop 8).take 2).all Char.isDigit
  | _ => false

/-- Models the external `json.loads` call of the validator for list-typed
columns: a string is accepted as a JSON list when it is bracketed.  The
actual decoding lives in the json library, outside this repository. -/
def json_is_list_str (s : String) : Bool :=
  let t := py_strip s
  (t.data.headD ' ' == '[') && (t.data.getLastD ' ' == ']')

/-- Embeds `CSVIngestionEngine._validate_field_type`: branch order and
acceptance rules follow the source (string accepts str/int/float — and bools,
since `bool` is an `int` subclass in Python; integer/float try `int()` /
`float()`; boolean accepts true/false/1/0/yes/no case-insensitively;
timestamp and list defer to the external parsers modelled above). -/
def validate_field_type (_field_name : String) (ftype : DType) (value : Cell) :
    Option String :=
  if value.isNa then none
  else if ftype.isString then none
  else if ftype.isInteger then
    match pyIntOfCell value with
    | some _ => none
    | none => some ("Expected integer, got " ++ py_type_name value ++ ": " ++ pyStrOfCell value)
  else if ftype.isFloating then
    match pyFloatOfCell value with
    | some _ => none
    | none => some ("Expected float, got " ++ py_type_name value ++ ": " ++ pyStrOfCell value)
  else if ftype.isBoolean then
    match value with
    | .bool _ => none
    | _ =>
      if ["true", "false", "1", "0", "yes", "no"].contains (py_lower (pyStrOfCell value)) then
        none
      else some ("Expected boolean, got " ++ py_type_name value ++ ": " ++ pyStrOfCell value)
  else if ftype.isTimestamp then
    if pd_to_datetime_ok value then none
    else some ("Expected timestamp, got " ++ py_type_name value ++ ": " ++ pyStrOfCell value)
  else if ftype.isList then
    match value with
    | .str s =>
      if json_is_list_str s then none
      else some ("Expected list, got " ++ py_type_name value ++ ": " ++ pyStrOfCell value)
    | _ => some ("Expected list, got " ++ py_type_name value ++ ": " ++ pyStrOfCell value)
  else none

/-- A CSV row as pandas hands it to the validator: column name to cell. -/
abbrev PyRow := List (String × Cell)

/-- Dictionary lookup on a row (`row_dict.get(field_name)`). -/
def rowGet : PyRow → String → Option Cell
  | [], _ => none
  | (k, v) :: rest, k' => if k = k' then some v else rowGet rest k'

/-- One row-level validation error
(`ValidationError` of `csv_ingestion.py`). -/
structure RowError where
  row_index : Nat
  field : String
  value : Option Cell
  error : String
  deriving Repr, DecidableEq

/-- Validation errors of one row, folded over the schema fields in order:
a missing non-nullable field is reported and skips the type check; a missing
nullable field is skipped; otherwise the type check may report. -/
def row_errors (r : PyRow) (schema : Schema) (idx : Nat) : List RowError :=
  schema.foldl (fun acc f =>
    let value := rowGet r f.name
    if ¬ f.nullable ∧ cell_missing value then
      acc ++ [⟨idx, f.name, value, "Required field is missing or null"⟩]
    else if cell_missing value then acc
    else
      match validate_field_type f.name f.dtype (value.getD .null) with
      | some msg => acc ++ [⟨idx, f.name, value, msg⟩]
      | none => acc) []

/-- Embeds `CSVIngestionEngine._transform_row_for_parquet`: coerces each
valid row to the schema's logical types (missing/NaN to null; unparseable
cells on nullable fields to null; booleans from the recognised tokens;
timestamp/list cells defer to the external parsers). -/
def transform_row_for_parquet (r : PyRow) (schema : Schema) : PyRow :=
  schema.map (fun f =>
    let value := rowGet r f.name
    (f.name,
      if cell_missing value then Cell.null
      else
        let v := value.getD .null
        if f.dtype.isInteger then
          match pyIntOfCell v with
          | some n => Cell.int n
          | none => Cell.null
        else if f.dtype.isFloating then
          match pyFloatOfCell v with
          | some q => Cell.float q
          | none => Cell.null
        else if f.dtype.isBoolean then
          match v with
          | .bool b => Cell.bool b
          | _ => Cell.bool (["true", "1", "yes"].contains (py_lower (pyStrOfCell v)))
        else if f.dtype.isTimestamp then
          (if pd_to_datetime_ok v then v else Cell.null)
        else if f.dtype.isList then v
        else if f.dtype.isString then Cell.str (pyStrOfCell v)
        else v))

/-- Embeds `CSVIngestionEngine._validate_and_separate_rows`: walks the rows
in order carrying the 0-based index; a clean row is transformed and kept, a
row with errors is recorded and, when `skip_errors` is false, stops the walk
at that row. -/
def validate_rows_aux (schema : Schema) (skip_errors : Bool) :
    List PyRow → Nat → List PyRow × List PyRow × List RowError
  | [], _ => ([], [], [])
  | r :: rest, idx =>
    let errs := row_errors r schema idx
    if errs.isEmpty then
      let res := validate_rows_aux schema skip_errors rest (idx + 1)
      (transform_row_for_parquet r schema :: res.1, res.2.1, res.2.2)
    else if skip_errors then
      let res := validate_rows_aux schema skip_errors rest (idx + 1)
      (res.1, r :: res.2.1, errs ++ res.2.2)
    else ([], [r], errs)

/-- Valid rows, invalid rows and errors of a row batch
(`_validate_and_separate_rows`). -/
def validate_and_separate_rows (rows : List PyRow) (schema : Schema)
    (skip_errors : Bool) : List PyRow × List PyRow × List RowError :=
  validate_rows_aux schema skip_errors rows 0

/-- Result of a CSV ingestion (`CSVIngestionResult`). -/
structure IngestResult where
  total_rows : Nat
  valid_rows : Nat
  invalid_rows : Nat
  errors : List RowError
  record_id : Option String
  version : Option Nat
  file_path : Option String
  deriving Repr, DecidableEq

/-- Embeds the shared body of `CSVIngestionEngine.ingest_csv` and
`ingest_csv_from_string` after the pandas CSV parse (both follow the same
steps on the parsed row list): build the record id, look up the schema,
return early on an empty batch or a batch with no valid rows, otherwise
store the valid rows through `update_record`/`create_record` under the
synthesized bulk-upload comment.  `inferred` stands for the arrow schema
pyarrow infers for `pd.DataFrame(valid_rows)`. -/
def ingest_rows (store : Store) (basePath : String) (rows : List PyRow)
    (table_name project_id entity_type entity_id user_id : String)
    (comment : Option String) (skip_errors : Bool) (inferred : Schema)
    (now ts uid : String) : Except PyErr IngestResult × Store :=
  let record_id := project_id ++ "/" ++ entity_type ++ "/" ++ entity_id
  match get_schema table_name with
  | none => (.error (.valueError ("No schema found for table: " ++ table_name)), store)
  | some schema =>
    let total_rows := rows.length
    if total_rows = 0 then
      (.ok ⟨0, 0, 0, [], some record_id, none, none⟩, store)
    else
      let vres := validate_and_separate_rows rows schema skip_errors
      if vres.1.length = 0 then
        (.ok ⟨total_rows, 0, vres.2.1.length, vres.2.2, some record_id, none, none⟩, store)
      else
        let default_comment := "Bulk CSV upload: " ++ toString vres.1.length ++ " rows, " ++
          toString vres.2.1.length ++ " errors"
        let valid_df : Frame := ⟨inferred, vres.1.map (fun r => r.map Prod.snd)⟩
        match read_metadata store record_id with
        | some _ =>
          match update_record store basePath record_id valid_df user_id
              (some (pyOrStr comment default_comment)) none now ts uid with
          | (.error e, store') => (.error e, store')
          | (.ok metadata, store') =>
            (.ok ⟨total_rows, vres.1.length, vres.2.1.length, vres.2.2, some record_id,
              some metadata.current_version,
              some (get_version_file_path record_id metadata.current_version)⟩, store')
        | none =>
          match create_record store basePath record_id valid_df table_name user_id
              (some (pyOrStr comment default_comment)) none now ts uid with
          | (.error e, store') => (.error e, store')
          | (.ok metadata, store') =>
            (.ok ⟨total_rows, vres.1.length, vres.2.1.length, vres.2.2, some record_id,
              some metadata.current_version,
              some (get_version_file_path record_id metadata.current_version)⟩, store')

/-- Relative key (under the engine's base path) at which a non-partitioned
`write_parquet` call for `path` actually lands, given the environment's
timestamp and uuid token. -/
def unique_rel_path (path ts uid : String) : String :=
  let stem := pathStem path
  let filename := if stem = "" then "data" else stem
  let safe_filename : String :=
    ⟨filename.data.map (fun c => if c = '/' ∨ c = '\\' then '_' else c)⟩
  pathParent path ++ "/" ++ safe_filename ++ "_" ++ ts ++ "_" ++ uid ++ ".parquet"

/-- A one-row dataframe conforming to the `projects` schema (its inferred
arrow schema taken equal to the registry schema). -/
def projFrame : Frame :=
  ⟨SCHEMA_PROJECTS, [[.str "p1", .str "Project One", .null, .null, .null, .null]]⟩

/-- A second one-row `projects` dataframe, used as updated content. -/
def projFrame2 : Frame :=
  ⟨SCHEMA_PROJECTS, [[.str "p1", .str "Project One updated", .null, .null, .null, .null]]⟩

/-- Concrete run of `create_record` on an empty store: record
`p1/borelog/b1`, table `projects`, default base path `parquet-data`. -/
def c1_run : Except PyErr Metadata × Store :=
  create_record [] "parquet-data" "p1/borelog/b1" projFrame "projects" "u1" none
    (some SCHEMA_PROJECTS) "2024-01-01T00:00:00Z" "20240101_000000" "abcdef12"

/-- The metadata both racing updaters read before either writes
(current_version = 1, as stored by `c1_run`). -/
def c2_meta : Metadata :=
  (read_metadata c1_run.2 "p1/borelog/b1").getD default

/-- First racing `update_record` invocation, run from the metadata snapshot
`c2_meta`, with its own timestamp/uuid environment inputs. -/
def c2_first : Except PyErr Metadata × Store :=
  update_record_with_meta c1_run.2 "parquet-data" "p1/borelog/b1" c2_meta projFrame2
    "u2" none (some SCHEMA_PROJECTS) "2024-01-02T00:00:00Z" "20240102_000000" "aaaaaaaa"

/-- Second racing `update_record` invocation: it read the same stale metadata
snapshot `c2_meta` (current_version = 1) but performs its data-file write
after the first invocation completed. -/
def c2_second : Except PyErr Metadata × Store :=
  update_record_with_meta c2_first.2 "parquet-data" "p1/borelog/b1" c2_meta projFrame2
    "u3" none (some SCHEMA_PROJECTS) "2024-01-02T00:00:01Z" "20240102_000001" "bbbbbbbb"

/-- Concrete `write_parquet` call on an empty store, used to examine what key
the write returns and whether reading that returned key back succeeds. -/
def c3_run : Except PyErr String × Store :=
  write_parquet [] "parquet-data" "records/r1/versions/v1.parquet" projFrame
    (some SCHEMA_PROJECTS) none false "20240103_000000" "11112222"

/-- Store holding an approved record: `approve_record` applied to the store
produced by `c1_run`. -/
def c4_s1 : Store :=
  (approve_record c1_run.2 "p1/borelog/b1" "u2" none "2024-01-02T10:00:00Z").2

/-- Metadata returned by that successful first approval. -/
def c4_m : Metadata :=
  (approve_record c1_run.2 "p1/borelog/b1" "u2" none "2024-01-02T10:00:00Z").1.toOption.getD default

/-- Concrete successful `update_record` call on the store of `c1_run`. -/
def c5_upd : Except PyErr Metadata × Store :=
  update_record c1_run.2 "parquet-data" "p1/borelog/b1" projFrame2 "u2" none
    (some SCHEMA_PROJECTS) "2024-01-02T00:00:00Z" "20240102_000000" "aaaaaaaa"

/-- Concrete successful `reject_record` call on the store of `c1_run`. -/
def c5_rej : Except PyErr Metadata × Store :=
  reject_record c1_run.2 "p1/borelog/b1" "u2" none "2024-01-02T10:00:00Z"

/-- Metadata returned by the concrete `create_record` run. -/
def c1_meta : Metadata := c1_run.1.toOption.getD default

/-- Metadata returned by the concrete successful `update_record` run. -/
def c5_upd_m : Metadata := c5_upd.1.toOption.getD default

/-- Metadata returned by the concrete successful `reject_record` run. -/
def c5_rej_m : Metadata := c5_rej.1.toOption.getD default

/-- A one-row CSV batch whose single row has a null in the non-nullable
`project_id` column, so validation leaves zero valid rows. -/
def c6_rows : List PyRow := [[("project_id", Cell.null), ("name", Cell.str "X")]]

/-- Lookup in a Python dict, modelled as an association list whose entries
keep insertion order (first match wins, as there is one entry per key). -/
def pydict_get {κ α : Type} [DecidableEq κ] : List (κ × α) → κ → Option α
  | [], _ => none
  | (k', v) :: rest, k => if k' = k then some v else pydict_get rest k

/-- Assignment in a Python dict: an existing key is updated in place, a new
key is appended. -/
def pydict_insert {κ α : Type} [DecidableEq κ] : List (κ × α) → κ → α → List (κ × α)
  | [], k, v => [(k, v)]
  | (k', v') :: rest, k, v =>
    if k' = k then (k', v) :: rest else (k', v') :: pydict_insert rest k v

/-- Substring test (Python `pat in hay` on strings). -/
def contains_substr : List Char → List Char → Bool
  | [], pat => pat.isEmpty
  | hay@(_ :: rest), pat => pat.isPrefixOf hay || contains_substr rest pat

/-- Substring test on strings. -/
def str_contains (hay pat : String) : Bool :=
  contains_substr hay.data pat.data

/-- Prefix test on strings (`str.startswith`). -/
def py_startswith (s pre : String) : Bool :=
  pre.data.isPrefixOf s.data

/-- Join strings with a separator (`sep.join(xs)`). -/
def join_with (sep : String) : List String → String
  | [] => ""
  | [x] => x
  | x :: rest => x ++ sep ++ join_with sep rest

/-- Embeds `parser._normalize_row`: every cell stripped. -/
def normalize_row (row : List String) : List String :=
  row.map py_strip

/-- Embeds `parser._has_meaningful_data`: some cell is non-empty. -/
def has_meaningful_data (row : List String) : Bool :=
  row.any (fun c => !(c == ""))

/-- Embeds `parser._looks_like_structured_header`. -/
def looks_like_structured_header (row : List String) : Bool :=
  let lowered := (row.filter (fun c => !(c == ""))).map py_lower
  lowered.contains "project_name" && lowered.contains "stratum_description"
    && lowered.contains "stratum_depth_from"

/-- Embeds `parser._looks_like_template_header`. -/
def looks_like_template_header (row : List String) : Bool :=
  let joined := join_with " " ((row.filter (fun c => !(c == ""))).map py_lower)
  str_contains joined "description of soil stratum" && str_contains joined "depth"

/-- Embeds `parser._safe_number` on the string-or-None values the template
path produces: strip, map the sentinel cells (`""`, `"-"`, `"#VALUE!"`,
`"[object Object]"`) to null, otherwise `float()`. -/
def safe_number (v : Option String) : Option ℚ :=
  match v with
  | none => none
  | some value =>
    let value := py_strip value
    if value = "" ∨ value = "-" ∨ value = "#VALUE!" ∨ value = "[object Object]" then none
    else pyFloatParse value

/-- Embeds `parser._safe_int`. -/
def safe_int (v : Option String) : Option Int :=
  (safe_number v).map ratTrunc

/-- Embeds `parser._safe_string`: strip, empty-after-strip maps to null. -/
def safe_string (v : Option String) : Option String :=
  match v with
  | none => none
  | some s =>
    let s := py_strip s
    if s = "" then none else some s

/-- Embeds `parser._calculate_thickness`: `round(depth_to - depth_from, 3)`. -/
def calculate_thickness (depth_from depth_to : ℚ) : ℚ :=
  Rat.divInt (round_half_even_scaled (rat_sub depth_to depth_from) 1000) 1000

/-- Embeds `parser._value_from_row`: out-of-range or missing index gives
null; the cell is stripped and empty maps to null. -/
def value_from_row (row : List String) (index : Option Nat) : Option String :=
  match index with
  | none => none
  | some i =>
    if row.length ≤ i then none
    else
      let value := py_strip (row.getD i "")
      if value = "" then none else some value

/-- Embeds `parser._is_template_footer`. -/
def is_template_footer (row : List String) : Bool :=
  let joined := py_lower (join_with " " row)
  ["termination depth", "total depth", "end of log"].any (fun marker => str_contains joined marker)

/-- Embeds `parser._is_sub_header_row`: header-like keywords, no digits, at
most five non-blank cells. -/
def is_sub_header_row (row : List String) : Bool :=
  if row.isEmpty then false
  else
    let keywords := ["from", "to", "thickness", "type", "depth", "sample", "event",
      "run length", "15 cm", "n - value", "total core", "tcr", "rqd",
      "colour", "water", "diameter", "remarks"]
    let row_lower := join_with " " ((row.filter (fun c => !(c == ""))).map py_lower)
    let has_numbers := row.any (fun c => c.data.any Char.isDigit)
    let has_header_keywords := keywords.any (fun k => str_contains row_lower k)
    has_header_keywords && !has_numbers
      && decide ((row.filter (fun c => !(py_strip c == ""))).length ≤ 5)

/-- Whitespace in the sense of the regex class `\s`. -/
def py_isspace (c : Char) : Bool :=
  c.isWhitespace

/-- Reads `\d+(?:\.\d+)?` at the head of the input: the matched decimal value
and the rest (a dot not followed by a digit is left unconsumed, as the regex
optional group then fails and matches empty). -/
def read_num (cs : List Char) : Option (ℚ × List Char) :=
  let ds := cs.takeWhile Char.isDigit
  if ds.isEmpty then none
  else
    let rest := cs.drop ds.length
    match rest with
    | '.' :: r2 =>
      let fs := r2.takeWhile Char.isDigit
      if fs.isEmpty then some (decimalToRat ds [], rest)
      else some (decimalToRat ds fs, r2.drop fs.length)
    | _ => some (decimalToRat ds [], rest)

/-- The characters of the regex class `[-â€“]` in `_build_template_strata`
(the source file holds the en dash mojibake-decoded, so the class contains
the plain hyphen and those three characters). -/
def dash_char (c : Char) : Bool :=
  c = '-' ∨ c = 'â' ∨ c = '€' ∨ c = '“'

/-- Match of `(\d+(?:\.\d+)?)\s*[-â€“]\s*(\d+(?:\.\d+)?)\s*m?` anchored at the
head of the input, returning the two captured numbers (the trailing `\s*m?`
always matches and binds nothing). -/
def match_depth_range_at (cs : List Char) : Option (ℚ × ℚ) :=
  match read_num cs with
  | none => none
  | some (a, r1) =>
    let r2 := r1.dropWhile py_isspace
    match r2 with
    | c :: r3 =>
      if dash_char c then
        let r4 := r3.dropWhile py_isspace
        match read_num r4 with
        | none => none
        | some (b, _) => some (a, b)
      else none
    | [] => none

/-- Leftmost match of the depth-range pattern (`re.search`), returning the
0-based character position where the match starts and the two numbers. -/
def depth_range_search : List Char → Nat → Option (Nat × ℚ × ℚ)
  | [], _ => none
  | cs@(_ :: rest), i =>
    match match_depth_range_at cs with
    | some (a, b) => some (i, a, b)
    | none => depth_range_search rest (i + 1)

/-- One sample/event attached to a stratum (`parser.py` sample dicts). -/
structure Sample where
  sample_event_type : Option String
  sample_event_depth_m : Option ℚ
  run_length_m : Option ℚ
  penetration_15cm : List (Option ℚ)
  n_value : Option String
  total_core_length_cm : Option ℚ
  tcr_percent : Option ℚ
  rqd_length_cm : Option ℚ
  rqd_percent : Option ℚ
  remarks : Option String
  deriving Repr, DecidableEq, Inhabited

/-- One stratum with its samples (`parser.py` stratum dicts). -/
structure Stratum where
  description : String
  depth_from : Option ℚ
  depth_to : Option ℚ
  thickness : Option ℚ
  colour_of_return_water : Option String
  water_loss : Option String
  diameter_of_borehole : Option String
  remarks : Option String
  tcr_percent : Option ℚ
  rqd_percent : Option ℚ
  samples : List Sample
  deriving Repr, DecidableEq, Inhabited

/-- The template column map: semantic field name to 0-based column index
(the `column_map` dict of `_build_template_column_map`). -/
abbrev ColumnMap := List (String × Nat)

/-- Embeds `parser._build_template_column_map`: headers are lowercased,
stripped and matched against the fixed substring predicates in source order;
the second argument is accepted and ignored exactly as in the source. -/
def build_template_column_map (header_row : List String)
    (_main_header_row : Option (List String)) : ColumnMap :=
  (List.range header_row.length).foldl (fun cm idx =>
    let lowered := py_strip (py_lower (header_row.getD idx ""))
    if str_contains lowered "description of soil stratum" then
      pydict_insert cm "description" idx
    else if lowered = "from" ∨ (py_startswith lowered "from" ∧ ¬ str_contains lowered "depth") then
      pydict_insert cm "depth_from" idx
    else if lowered = "to" ∨ (py_startswith lowered "to" ∧ ¬ str_contains lowered "depth"
        ∧ ¬ str_contains lowered "total") then
      pydict_insert cm "depth_to" idx
    else if str_contains lowered "depth" ∧ str_contains lowered "from" then
      (if (pydict_get cm "depth_from").isNone then pydict_insert cm "depth_from" idx else cm)
    else if str_contains lowered "depth" ∧ str_contains lowered "to"
        ∧ ¬ str_contains lowered "total" then
      (if (pydict_get cm "depth_to").isNone then pydict_insert cm "depth_to" idx else cm)
    else if str_contains lowered "thickness" then pydict_insert cm "thickness" idx
    else if str_contains lowered "sample" ∧ str_contains lowered "type" then
      pydict_insert cm "sample_type" idx
    else if str_contains lowered "sample"
        ∧ (str_contains lowered "depth" ∨ str_contains lowered "(m)") then
      (if (pydict_get cm "sample_depth").isNone then pydict_insert cm "sample_depth" idx else cm)
    else if str_contains lowered "run length" then pydict_insert cm "run_length" idx
    else if str_contains lowered "15 cm" then
      let cm :=
        if (pydict_get cm "spt_blows_1").isNone then pydict_insert cm "spt_blows_1" idx
        else if (pydict_get cm "spt_blows_2").isNone then pydict_insert cm "spt_blows_2" idx
        else if (pydict_get cm "spt_blows_3").isNone then pydict_insert cm "spt_blows_3" idx
        else cm
      if (pydict_get cm "spt_blows").isNone then pydict_insert cm "spt_blows" idx else cm
    else if str_contains lowered "n - value" ∨ str_contains lowered "n value"
        ∨ str_contains lowered "is - 2131" then
      pydict_insert cm "n_value" idx
    else if str_contains lowered "total core length" then
      pydict_insert cm "total_core_length" idx
    else if str_contains lowered "tcr" ∧ str_contains lowered "%" then
      pydict_insert cm "tcr_percent" idx
    else if str_contains lowered "rqd length" then pydict_insert cm "rqd_length" idx
    else if str_contains lowered "rqd (%)" ∨ str_contains lowered "rqd %" then
      pydict_insert cm "rqd_percent" idx
    else if str_contains lowered "colour of return water"
        ∨ str_contains lowered "color of return water" then
      pydict_insert cm "return_water_colour" idx
    else if str_contains lowered "water loss" then pydict_insert cm "water_loss" idx
    else if str_contains lowered "diameter" ∧ str_contains lowered "bore hole" then
      pydict_insert cm "borehole_diameter" idx
    else if str_contains lowered "remarks" then pydict_insert cm "remarks" idx
    else cm) []

/-- Split on runs of commas/whitespace (`re.split(r"[,\s]+", value)`):
leading or trailing separators produce empty pieces, interior runs one
split. -/
def split_runs (sep : Char → Bool) : List Char → List (List Char)
  | [] => [[]]
  | c :: rest =>
    let r := split_runs sep rest
    if sep c then
      match rest with
      | c2 :: _ => if sep c2 then r else [] :: r
      | [] => [] :: r
    else (c :: r.headD []) :: r.tailD []

/-- Embeds `parser._parse_spt_blows`: split the cell on comma/whitespace
runs, take at most three pieces as numbers, pad with nulls to three. -/
def parse_spt_blows (v : Option String) : List (Option ℚ) :=
  match v with
  | none => []
  | some value =>
    if value = "" then []
    else
      let parts := (split_runs (fun c => c = ',' ∨ py_isspace c) value.data).map
        (fun cs => (⟨cs⟩ : String))
      let blows := (parts.take 3).map (fun p => safe_number (some p))
      blows ++ List.replicate (3 - blows.length) none

/-- Truth of a sample text cell in the source's `has_any_data` test: present,
non-blank and not the dash sentinel. -/
def sample_text_present (v : Option String) : Bool :=
  match v with
  | none => false
  | some s => !(py_strip s == "") && !(py_strip s == "-")

/-- Embeds `parser._build_sample_from_template_row`: captures every sample
field via the column map, prefers the three dedicated SPT columns and falls
back to the single whitespace/comma-split cell, pads the blow list to three,
and discards the row when it carries no sample-related data at all. -/
def build_sample_from_template_row (row : List String) (cm : ColumnMap) : Option Sample :=
  let sample_type := value_from_row row (pydict_get cm "sample_type")
  let sample_depth := safe_number (value_from_row row (pydict_get cm "sample_depth"))
  let run_length := safe_number (value_from_row row (pydict_get cm "run_length"))
  let spt_blows_list :=
    (if (pydict_get cm "spt_blows_1").isSome then
      [safe_number (value_from_row row (pydict_get cm "spt_blows_1"))] else [])
    ++ (if (pydict_get cm "spt_blows_2").isSome then
      [safe_number (value_from_row row (pydict_get cm "spt_blows_2"))] else [])
    ++ (if (pydict_get cm "spt_blows_3").isSome then
      [safe_number (value_from_row row (pydict_get cm "spt_blows_3"))] else [])
  let spt_blows_list :=
    if spt_blows_list.isEmpty ∧ (pydict_get cm "spt_blows").isSome then
      parse_spt_blows (value_from_row row (pydict_get cm "spt_blows"))
    else spt_blows_list
  let spt_blows_list := spt_blows_list ++ List.replicate (3 - spt_blows_list.length) none
  let n_value := value_from_row row (pydict_get cm "n_value")
  let total_core := safe_number (value_from_row row (pydict_get cm "total_core_length"))
  let tcr := safe_number (value_from_row row (pydict_get cm "tcr_percent"))
  let rqd_length := safe_number (value_from_row row (pydict_get cm "rqd_length"))
  let rqd_percent := safe_number (value_from_row row (pydict_get cm "rqd_percent"))
  let remarks := value_from_row row (pydict_get cm "remarks")
  let has_blow_values := spt_blows_list.any Option.isSome
  let has_any_data :=
    sample_text_present sample_type || sample_depth.isSome || run_length.isSome
    || total_core.isSome || tcr.isSome || rqd_length.isSome || rqd_percent.isSome
    || has_blow_values || sample_text_present n_value || sample_text_present remarks
  if ¬ has_any_data then none
  else some
    { sample_event_type := safe_string sample_type
      sample_event_depth_m := sample_depth
      run_length_m := run_length
      penetration_15cm := spt_blows_list.take 3
      n_value := safe_string n_value
      total_core_length_cm := total_core
      tcr_percent := tcr
      rqd_length_cm := rqd_length
      rqd_percent := rqd_percent
      remarks := safe_string remarks }

/-- Appends a sample to the most recently created stratum (the Python code
mutates `current_stratum`, which is the last element of the list). -/
def append_sample_to_last (strata : List Stratum) (smp : Sample) : List Stratum :=
  match strata.getLast? with
  | none => strata
  | some last => strata.dropLast ++ [{ last with samples := last.samples ++ [smp] }]

/-- Loop body of `parser._build_template_strata`: walks the data rows,
skipping blank and sub-header rows, stopping at a footer row; a row with a
description and either both depths or a thickness starts a stratum (depths
may be recovered from a range embedded in the description, in which case the
description is truncated to the text before the range when that text is
non-empty); any other row below a current stratum may attach a sample. -/
def build_template_strata_aux (cm : ColumnMap) :
    List (List String) → List Stratum → Bool → List Stratum
  | [], strata, _ => strata
  | row :: rest, strata, has_current =>
    let normalized := normalize_row row
    if ¬ has_meaningful_data normalized then
      build_template_strata_aux cm rest strata has_current
    else if is_template_footer normalized then strata
    else if is_sub_header_row normalized then
      build_template_strata_aux cm rest strata has_current
    else
      let description0 := value_from_row normalized (pydict_get cm "description")
      let depth_from0 := safe_number (value_from_row normalized (pydict_get cm "depth_from"))
      let depth_to0 := safe_number (value_from_row normalized (pydict_get cm "depth_to"))
      let thickness0 := safe_number (value_from_row normalized (pydict_get cm "thickness"))
      let extracted :=
        match description0 with
        | some d =>
          if depth_from0.isNone ∨ depth_to0.isNone then
            match depth_range_search d.data 0 with
            | some (i, a, b) =>
              let df := if depth_from0.isNone then some a else depth_from0
              let dt := if depth_to0.isNone then some b else depth_to0
              let desc_clean := py_strip ⟨d.data.take i⟩
              ((if ¬ (desc_clean = "") then some desc_clean else some d), df, dt)
            | none => (some d, depth_from0, depth_to0)
          else (some d, depth_from0, depth_to0)
        | none => (none, depth_from0, depth_to0)
      let description := extracted.1
      let depth_from := extracted.2.1
      let depth_to := extracted.2.2
      let has_description : Bool :=
        match description with
        | some d => !(py_strip d == "")
        | none => false
      let has_from_to : Bool := depth_from.isSome && depth_to.isSome
      let has_thickness : Bool := thickness0.isSome
      if has_description && (has_from_to || has_thickness) then
        let fixed :=
          if thickness0.isNone && has_from_to then
            (depth_from, depth_to,
              some (calculate_thickness (depth_from.getD 0) (depth_to.getD 0)))
          else if !has_from_to && thickness0.isSome then
            (none, none, thickness0)
          else (depth_from, depth_to, thickness0)
        let st : Stratum :=
          { description := py_strip ((description.getD ""))
            depth_from := fixed.1
            depth_to := fixed.2.1
            thickness := fixed.2.2
            colour_of_return_water :=
              safe_string (value_from_row normalized (pydict_get cm "return_water_colour"))
            water_loss := safe_string (value_from_row normalized (pydict_get cm "water_loss"))
            diameter_of_borehole :=
              safe_string (value_from_row normalized (pydict_get cm "borehole_diameter"))
            remarks := safe_string (value_from_row normalized (pydict_get cm "remarks"))
            tcr_percent := safe_number (value_from_row normalized (pydict_get cm "tcr_percent"))
            rqd_percent := safe_number (value_from_row normalized (pydict_get cm "rqd_percent"))
            samples := [] }
        let st :=
          match build_sample_from_template_row normalized cm with
          | some smp => { st with samples := [smp] }
          | none => st
        build_template_strata_aux cm rest (strata ++ [st]) true
      else
        if has_current then
          match build_sample_from_template_row normalized cm with
          | some smp => build_template_strata_aux cm rest (append_sample_to_last strata smp) true
          | none => build_template_strata_aux cm rest strata true
        else build_template_strata_aux cm rest strata false

/-- Embeds `parser._build_template_strata`. -/
def build_template_strata (rows : List (List String)) (cm : ColumnMap) : List Stratum :=
  build_template_strata_aux cm rows [] false

/-- Parsed borehole metadata: a Python dict from field names to values
(strings, numbers or null). -/
abbrev MetaDict := List (String × Cell)

/-- Cell of an optional string. -/
def cell_of_opt_str : Option String → Cell
  | some s => .str s
  | none => .null

/-- Cell of an optional rational. -/
def cell_of_opt_num : Option ℚ → Cell
  | some q => .float q
  | none => .null

/-- Cell of an optional integer. -/
def cell_of_opt_int : Option Int → Cell
  | some n => .int n
  | none => .null

/-- The `pick` helper of `parser._build_structured_metadata`: first key whose
row value is truthy, stripped. -/
def pick_row (row : List (String × String)) : List String → Option String
  | [] => none
  | k :: rest =>
    match pydict_get row k with
    | some v => if ¬ (v = "") then some (py_strip v) else pick_row row rest
    | none => pick_row row rest

/-- Embeds `parser._build_structured_metadata` (field list and conversions in
source order). -/
def build_structured_metadata (row : List (String × String)) : MetaDict :=
  [("project_name", cell_of_opt_str (pick_row row ["project_name"])),
   ("job_code", cell_of_opt_str (pick_row row ["job_code"])),
   ("chainage_km", cell_of_opt_num (safe_number (pick_row row ["chainage_km"]))),
   ("borehole_no", cell_of_opt_str (pick_row row ["borehole_no"])),
   ("msl", cell_of_opt_num (safe_number (pick_row row ["msl"]))),
   ("method_of_boring", cell_of_opt_str (pick_row row ["method_of_boring"])),
   ("diameter_of_hole", cell_of_opt_str (pick_row row ["diameter_of_hole"])),
   ("section_name", cell_of_opt_str (pick_row row ["section_name"])),
   ("location", Cell.str (pyOrStr (pick_row row ["location"]) "")),
   ("coordinate_e", cell_of_opt_str (pick_row row ["coordinate_e"])),
   ("coordinate_l", cell_of_opt_str (pick_row row ["coordinate_l"])),
   ("commencement_date", cell_of_opt_str (pick_row row ["commencement_date"])),
   ("completion_date", cell_of_opt_str (pick_row row ["completion_date"])),
   ("standing_water_level", cell_of_opt_str (pick_row row ["standing_water_level"])),
   ("termination_depth", cell_of_opt_str (pick_row row ["termination_depth"])),
   ("permeability_tests_count", cell_of_opt_int (safe_int (pick_row row ["permeability_tests_count"]))),
   ("spt_tests_count", cell_of_opt_int (safe_int (pick_row row ["spt_tests_count"]))),
   ("vs_tests_count", cell_of_opt_int (safe_int (pick_row row ["vs_tests_count"]))),
   ("undisturbed_samples_count", cell_of_opt_int (safe_int (pick_row row ["undisturbed_samples_count"]))),
   ("disturbed_samples_count", cell_of_opt_int (safe_int (pick_row row ["disturbed_samples_count"]))),
   ("water_samples_count", cell_of_opt_int (safe_int (pick_row row ["water_samples_count"]))),
   ("version_number", cell_of_opt_int (safe_int (pick_row row ["version_number"]))),
   ("status", Cell.str (pyOrStr (pick_row row ["status"]) "draft")),
   ("remarks", cell_of_opt_str (pick_row row ["remarks"]))]

/-- Embeds `parser._build_sample_from_structured_row` (note the source's
presence test does not include `n_value`). -/
def build_sample_from_structured_row (row : List (String × String)) : Option Sample :=
  let sample_type := py_strip (pyOrStr (pydict_get row "sample_event_type") "")
  let sample_depth := safe_number (pydict_get row "sample_event_depth_m")
  let run_length := safe_number (pydict_get row "run_length_m")
  let blows := [safe_number (pydict_get row "spt_blows_1"),
    safe_number (pydict_get row "spt_blows_2"),
    safe_number (pydict_get row "spt_blows_3")]
  let n_value := pydict_get row "n_value_is_2131"
  let total_core := safe_number (pydict_get row "total_core_length_cm")
  let tcr := safe_number (pydict_get row "tcr_percent")
  let rqd_length := safe_number (pydict_get row "rqd_length_cm")
  let rqd_percent := safe_number (pydict_get row "rqd_percent")
  let remarks := safe_string (pydict_get row "remarks")
  let has_blow_values := blows.any Option.isSome
  let has_any :=
    !(sample_type == "") || sample_depth.isSome || run_length.isSome
    || total_core.isSome || tcr.isSome || rqd_length.isSome || rqd_percent.isSome
    || has_blow_values || remarks.isSome
  if ¬ has_any then none
  else some
    { sample_event_type := if sample_type = "" then none else some sample_type
      sample_event_depth_m := sample_depth
      run_length_m := run_length
      penetration_15cm := blows
      n_value :=
        (match n_value with
         | some s => if s = "" then none else some s
         | none => none)
      total_core_length_cm := total_core
      tcr_percent := tcr
      rqd_length_cm := rqd_length
      rqd_percent := rqd_percent
      remarks := remarks }

/-- Loop body of `parser._build_structured_strata`: strata are deduplicated
by the (depth_from, depth_to, description) key; a repeated key merges missing
remarks and attaches its sample to the existing stratum (the Python dict
aliases the list entry, modelled by an index into the list). -/
def build_structured_strata_aux :
    List (List (String × String)) → List Stratum → List ((ℚ × ℚ × String) × Nat) → List Stratum
  | [], strata, _ => strata
  | row :: rest, strata, sindex =>
    let description := py_strip (pyOrStr (pydict_get row "stratum_description") "")
    let depth_from := safe_number (pydict_get row "stratum_depth_from")
    let depth_to := safe_number (pydict_get row "stratum_depth_to")
    match depth_from, depth_to with
    | some a, some b =>
      if description = "" then build_structured_strata_aux rest strata sindex
      else
        let key := (a, b, description)
        match pydict_get sindex key with
        | none =>
          let thickness :=
            match safe_number (pydict_get row "stratum_thickness_m") with
            | some t => if t = 0 then calculate_thickness a b else t
            | none => calculate_thickness a b
          let st : Stratum :=
            { description := description
              depth_from := some a
              depth_to := some b
              thickness := some thickness
              colour_of_return_water := safe_string (pydict_get row "return_water_colour")
              water_loss := safe_string (pydict_get row "water_loss")
              diameter_of_borehole := safe_string (pydict_get row "borehole_diameter")
              remarks := safe_string (pydict_get row "remarks")
              tcr_percent := safe_number (pydict_get row "tcr_percent")
              rqd_percent := safe_number (pydict_get row "rqd_percent")
              samples := [] }
          let st :=
            match build_sample_from_structured_row row with
            | some smp => { st with samples := [smp] }
            | none => st
          build_structured_strata_aux rest (strata ++ [st])
            (pydict_insert sindex key strata.length)
        | some i =>
          let s0 := strata.getD i default
          let s1 :=
            if s0.remarks.isNone then
              { s0 with remarks := safe_string (pydict_get row "remarks") }
            else s0
          let s2 :=
            match build_sample_from_structured_row row with
            | some smp => { s1 with samples := s1.samples ++ [smp] }
            | none => s1
          build_structured_strata_aux rest (strata.set i s2) sindex
    | _, _ => build_structured_strata_aux rest strata sindex

/-- Embeds `parser._build_structured_strata`. -/
def build_structured_strata (rows : List (List (String × String))) : List Stratum :=
  build_structured_strata_aux rows [] []

/-- Embeds `parser._parse_structured`: the first non-empty row after the
header is the single metadata row, all further rows are stratum/sample rows;
records map header names to padded cells. -/
def parse_structured (rows_after_header : List (List String))
    (header_row : List String) : Except PyErr (MetaDict × List Stratum) :=
  let header := header_row.map py_strip
  let records := ((rows_after_header.map normalize_row).filter (fun r => !r.isEmpty)).map
    (fun normalized =>
      let padded := normalized ++ List.replicate (header.length - normalized.length) ""
      (List.range header.length).foldl
        (fun acc i => pydict_insert acc (header.getD i "") (padded.getD i "")) [])
  match records with
  | [] => .error (.valueError "Structured CSV missing metadata row")
  | metadata_row :: strata_rows =>
    .ok (build_structured_metadata metadata_row, build_structured_strata strata_rows)

/-- Label-to-field dictionary of `parser._build_template_metadata`. -/
def template_label_map : List (String × String) :=
  [("project name", "project_name"),
   ("job code", "job_code"),
   ("section name", "section_name"),
   ("chainage", "chainage_km"),
   ("location", "location"),
   ("borehole no", "borehole_no"),
   ("commencement date", "commencement_date"),
   ("completion date", "completion_date"),
   ("method of boring", "method_of_boring"),
   ("diameter of hole", "diameter_of_hole"),
   ("standing water level", "standing_water_level"),
   ("termination depth", "termination_depth"),
   ("mean sea level", "mean_sea_level"),
   ("no. of permeabilty test", "permeability_tests_count"),
   ("no. of sp test", "spt_tests_count"),
   ("no. of undisturbed sample", "undisturbed_samples_count"),
   ("no. of disturbed sample", "disturbed_samples_count"),
   ("no. of water sample", "water_samples_count")]

/-- Field names the template metadata dict is initialised with (all null). -/
def template_metadata_keys : List String :=
  ["project_name", "job_code", "section_name", "chainage_km", "location",
   "borehole_no", "commencement_date", "completion_date", "method_of_boring",
   "diameter_of_hole", "standing_water_level", "termination_depth",
   "mean_sea_level", "permeability_tests_count", "spt_tests_count",
   "undisturbed_samples_count", "disturbed_samples_count", "water_samples_count"]

/-- Split at the first colon (`cell.split(":", 1)` guarded by `":" in cell`). -/
def split_first_colon (s : String) : Option (String × String) :=
  match s.data.findIdx? (fun c => c = ':') with
  | none => none
  | some i => some (⟨s.data.take i⟩, ⟨s.data.drop (i + 1)⟩)

/-- Truth of `not metadata.get(key)` for a metadata value. -/
def meta_unset (m : MetaDict) (k : String) : Bool :=
  match pydict_get m k with
  | none => true
  | some .null => true
  | some (.str s) => s == ""
  | some _ => false

/-- One row of the template metadata extraction: key-colon-value cells, or a
known label followed by an adjacent value cell. -/
def template_metadata_row (m : MetaDict) (row : List String) : MetaDict :=
  (List.range row.length).foldl (fun m idx =>
    let cell := row.getD idx ""
    let normalized_label := py_lower cell
    match split_first_colon cell with
    | some (label, value) =>
      (match pydict_get template_label_map (py_strip (py_lower label)) with
       | some key => if meta_unset m key then pydict_insert m key (.str (py_strip value)) else m
       | none => m)
    | none =>
      match pydict_get template_label_map normalized_label with
      | some key =>
        if idx + 1 < row.length then
          let value := py_strip (row.getD (idx + 1) "")
          if ¬ (value = "") ∧ meta_unset m key then pydict_insert m key (.str value) else m
        else m
      | none => m) m

/-- Numeric value of a template metadata cell (a string run through
`_safe_number`, everything else null). -/
def meta_cell_number (m : MetaDict) (k : String) : Option ℚ :=
  match pydict_get m k with
  | some (.str s) => safe_number (some s)
  | _ => none

/-- Embeds `parser._build_template_metadata`: scan the pre-header rows, then
apply the final numeric/integer conversions and the location default. -/
def build_template_metadata (rows : List (List String)) : MetaDict :=
  let m0 : MetaDict := template_metadata_keys.map (fun k => (k, Cell.null))
  let m := rows.foldl template_metadata_row m0
  let m := ["chainage_km", "standing_water_level", "termination_depth", "mean_sea_level"].foldl
    (fun m k => pydict_insert m k (cell_of_opt_num (meta_cell_number m k))) m
  let m := ["permeability_tests_count", "spt_tests_count", "undisturbed_samples_count",
      "disturbed_samples_count", "water_samples_count"].foldl
    (fun m k => pydict_insert m k (cell_of_opt_int ((meta_cell_number m k).map ratTrunc))) m
  match pydict_get m "location" with
  | some (.str s) => if s = "" then pydict_insert m "location" (.str "") else m
  | _ => pydict_insert m "location" (.str "")

/-- Embeds `parser._parse_template`: metadata from the rows before the
header; the row after the header is inspected for "From"/"To" labels and, if
found, becomes the sub-header the column map is built from (and is skipped
as data); otherwise the main header is used. -/
def parse_template (metadata_rows : List (List String)) (header_row : List String)
    (remaining : List (List String)) : MetaDict × List Stratum :=
  let metadata := build_template_metadata metadata_rows
  match remaining with
  | [] => (metadata, build_template_strata [] (build_template_column_map header_row none))
  | first :: _ =>
    let normalized_first := normalize_row first
    let has_from := normalized_first.any (fun c => str_contains (py_lower c) "from")
    let has_to := normalized_first.any
      (fun c => str_contains (py_lower c) "to" && !(py_lower c == "total"))
    if has_from && has_to then
      let cm := build_template_column_map normalized_first (some header_row)
      (metadata, build_template_strata (remaining.drop 1) cm)
    else
      let cm := build_template_column_map header_row none
      (metadata, build_template_strata remaining cm)

/-- Loop of `parser.parse_borelog_document`: skip blank rows, detect the
structured or the template header, accumulate metadata rows before a
template header, fail when no header is found. -/
def parse_borelog_document_aux :
    List (List String) → List (List String) → Except PyErr (MetaDict × List Stratum)
  | [], _ => .error (.valueError
      ("Failed to detect borelog header. Expected either structured CSV " ++
       "headers (project_name, stratum_description, ...) or template headers " ++
       "containing 'Description of Soil Stratum'."))
  | row :: rest, metadata_rows =>
    let normalized := normalize_row row
    if ¬ has_meaningful_data normalized then
      parse_borelog_document_aux rest metadata_rows
    else if looks_like_structured_header normalized then
      parse_structured rest normalized
    else
      let metadata_rows := metadata_rows ++ [normalized]
      if looks_like_template_header normalized then
        .ok (parse_template metadata_rows normalized rest)
      else parse_borelog_document_aux rest metadata_rows

/-- Embeds `parser.parse_borelog_document`: a pure function of the row
sequence. -/
def parse_borelog_document (rows : List (List String)) :
    Except PyErr (MetaDict × List Stratum) :=
  parse_borelog_document_aux rows []

/-- Formatting `f"{x:.3f}"` of an exact decimal: round-half-even at the third
decimal, then render with exactly three fraction digits. -/
def format3 (q : ℚ) : String :=
  let n := round_half_even_scaled q 1000
  let sign := if n < 0 then "-" else ""
  let a := n.natAbs
  let frs := toString (a % 1000)
  sign ++ toString (a / 1000) ++ "." ++ (⟨List.replicate (3 - frs.length) '0'⟩ ++ frs)

/-- Range key of a stratum for the depth index
(`f"{depth_from:.3f}-{depth_to:.3f}"`), or null when either depth is null. -/
def stratum_range_key (s : Stratum) : Option String :=
  match s.depth_from, s.depth_to with
  | some a, some b => some (format3 a ++ "-" ++ format3 b)
  | _, _ => none

/-- Loop of `lambda_handler._build_depth_index` carrying the enumeration
index: strata lacking either depth contribute nothing; a repeated range key
overwrites the stored ordinal (Python dict assignment). -/
def build_depth_index_go : List Stratum → Nat → List (String × Nat) → List (String × Nat)
  | [], _, d => d
  | s :: rest, idx, d =>
    match stratum_range_key s with
    | none => build_depth_index_go rest (idx + 1) d
    | some k => build_depth_index_go rest (idx + 1) (pydict_insert d k idx)

/-- Embeds `lambda_handler._build_depth_index`. -/
def build_depth_index (strata : List Stratum) : List (String × Nat) :=
  build_depth_index_go strata 0 []

/-- Borehole envelope composed by the parse worker (`lambda_handler.py`). -/
structure BoreholeDoc where
  project_id : String
  structure_id : Option String
  substructure_id : Option String
  borelog_id : String
  version_no : Int
  upload_id : String
  file_type : String
  requested_by : Option String
  job_code : Option Cell
  metadata : MetaDict
  parsed_at : String
  deriving Repr, DecidableEq

/-- An object in the worker's S3 bucket: the raw upload (standing for the
row sequence `iter_csv_rows`/`iter_xlsx_rows` yields for it), or one of the
two JSON documents the worker writes. -/
inductive S3Obj where
  | raw (rows : List (List String))
  | strataJson (borehole : BoreholeDoc) (strata : List Stratum)
  | indexJson (index : List (String × Nat))
  deriving Repr, DecidableEq

/-- The worker's S3 bucket contents. -/
abbrev S3Store := List (String × S3Obj)

/-- Object-store side effects performed by one worker invocation. -/
inductive WorkerEffect where
  | download (bucket key : String)
  | put (bucket key : String)
  deriving Repr, DecidableEq

/-- Result dictionary of `_process_payload`. -/
structure WorkerResult where
  status : String
  strata_count : Option Nat
  strata_key : Option String
  index_key : Option String
  deriving Repr, DecidableEq

/-- The parse-worker payload (`lambda_handler._process_payload` fields). -/
structure WorkerPayload where
  bucket : Option String
  csvKey : Option String
  key : Option String
  project_id : Option String
  borelog_id : Option String
  upload_id : Option String
  version_no : Option Cell
  fileType : Option String
  file_type : Option String
  structure_id : Option String
  substructure_id : Option String
  requestedBy : Option String
  requested_by : Option String
  deriving Repr, DecidableEq

/-- Truth of an optional string (`None` and `""` are falsy). -/
def py_truthy_str : Option String → Bool
  | none => false
  | some s => !(s == "")

/-- Python falsiness of a JSON scalar. -/
def cell_falsy : Cell → Bool
  | .null => true
  | .str s => s == ""
  | .int n => n == 0
  | .bool b => !b
  | .float q => q == 0

/-- Python `a or b` on optional strings (empty string is falsy, and the
expression returns the second operand unchanged then). -/
def py_or_opt (a b : Option String) : Option String :=
  match a with
  | some s => if s = "" then b else some s
  | none => b

/-- Embeds `int(payload.get("version_no") or 1)` with the
TypeError/ValueError fallback to 1. -/
def worker_version_no (v : Option Cell) : Int :=
  match v with
  | none => 1
  | some c => if cell_falsy c then 1 else (pyIntOfCell c).getD 1

/-- The worker's parsed-output base prefix
`projects/{project_id}/borelogs/{borelog_id}/parsed/v{version_no}`. -/
def worker_parsed_base (p : WorkerPayload) : String :=
  "projects/" ++ p.project_id.getD "" ++ "/borelogs/" ++ p.borelog_id.getD "" ++
    "/parsed/v" ++ toString (worker_version_no p.version_no)

/-- The worker's `strata.json` key. -/
def worker_strata_key (p : WorkerPayload) : String :=
  worker_parsed_base p ++ "/strata.json"

/-- The worker's `index.json` key. -/
def worker_index_key (p : WorkerPayload) : String :=
  worker_parsed_base p ++ "/index.json"

/-- Embeds `lambda_handler._process_payload`: payload validation, key
construction, the idempotence gate on `strata_key`, then download → parse →
write `strata.json` and `index.json`.  Returns the result, the bucket
contents afterwards, and the list of object-store effects performed.  `now`
is the `datetime.now(timezone.utc).isoformat()` stamp. -/
def process_payload (s3 : S3Store) (defaultBucket : String) (p : WorkerPayload)
    (now : String) : Except PyErr WorkerResult × S3Store × List WorkerEffect :=
  let bucket := pyOrStr p.bucket defaultBucket
  if bucket = "" then
    (.error (.valueError "Bucket is required to process borelog payload"), s3, [])
  else
    match py_or_opt p.csvKey p.key with
    | none =>
      (.error (.valueError "CSV key is required to process borelog payload"), s3, [])
    | some key =>
      if key = "" then
        (.error (.valueError "CSV key is required to process borelog payload"), s3, [])
      else if ¬ (py_truthy_str p.project_id && py_truthy_str p.borelog_id
          && py_truthy_str p.upload_id) then
        (.error (.valueError "project_id, borelog_id, and upload_id are required in payload"),
         s3, [])
      else
        let project_id := p.project_id.getD ""
        let borelog_id := p.borelog_id.getD ""
        let upload_id := p.upload_id.getD ""
        let version_no := worker_version_no p.version_no
        let file_type := py_lower (pyOrStr p.fileType (pyOrStr p.file_type "csv"))
        let strata_key := worker_strata_key p
        let index_key := worker_index_key p
        if (pydict_get s3 strata_key).isSome then
          (.ok ⟨"SKIPPED", none, some strata_key, some index_key⟩, s3, [])
        else
          match pydict_get s3 key with
          | some (.raw rows) =>
            (match parse_borelog_document rows with
             | .error e => (.error e, s3, [.download bucket key])
             | .ok (metadata, strata) =>
               let borehole : BoreholeDoc :=
                 { project_id := project_id
                   structure_id := p.structure_id
                   substructure_id := p.substructure_id
                   borelog_id := borelog_id
                   version_no := version_no
                   upload_id := upload_id
                   file_type := file_type
                   requested_by := py_or_opt p.requestedBy p.requested_by
                   job_code := pydict_get metadata "job_code"
                   metadata := metadata
                   parsed_at := now }
               let s3 := pydict_insert s3 strata_key (.strataJson borehole strata)
               let s3 := pydict_insert s3 index_key (.indexJson (build_depth_index strata))
               (.ok ⟨"PARSED", some strata.length, some strata_key, some index_key⟩, s3,
                [.download bucket key, .put bucket strata_key, .put bucket index_key]))
          | _ =>
            (.error (.clientError ("Failed to download " ++ bucket ++ "/" ++ key)), s3,
             [.download bucket key])

/-- Entity-type to table-name mapping (`ParquetRepository.ENTITY_TABLE_MAP`). -/
def ENTITY_TABLE_MAP (entity_type : String) : Option String :=
  if entity_type = "borelog" then some "borelog_versions"
  else if entity_type = "geological_log" then some "geological_log"
  else if entity_type = "lab_test" then some "unified_lab_reports"
  else none

/-- Python `dict.setdefault(k, v)`. -/
def row_setdefault (r : PyRow) (k : String) (v : Cell) : PyRow :=
  match rowGet r k with
  | some _ => r
  | none => r ++ [(k, v)]

/-- Embeds `ParquetRepository._payload_to_dataframe`: one row in the locked
schema's column order, missing columns filled with null.  `inferred` stands
for the arrow schema pyarrow infers for the built dataframe. -/
def payload_to_dataframe (payload : PyRow) (table_name : String)
    (inferred : Schema) : Except PyErr Frame :=
  match get_schema table_name with
  | none => .error (.valueError ("No schema found for table: " ++ table_name))
  | some schema =>
    .ok ⟨inferred, [schema.map (fun f => (rowGet payload f.name).getD .null)]⟩

/-- Composite result of a repository operation (`ParquetRepository.update`
return dictionary; the data row is kept raw, the JSON-serialisation
conversions of `_dataframe_to_dict` act on values no theorem inspects). -/
structure RepoResult where
  entity_type : String
  project_id : String
  entity_id : String
  data_row : Option (List Cell)
  current_version : Nat
  status : String
  deriving Repr, DecidableEq

/-- Embeds `ParquetRepository.update`.  The default-comment f-string
`f"Updated ... to version {metadata['current_version'] + 1}"` reads the local
variable `metadata` that the very same statement assigns, so when `comment`
is falsy (None or empty) Python raises UnboundLocalError while evaluating
the arguments, before `update_record` runs; a truthy comment short-circuits
the `or` and the call proceeds.  After a successful `update_record`, the
method re-reads the latest version; `get_latest_version` returning None
makes `_dataframe_to_dict(None)` raise AttributeError on `.empty`. -/
def repository_update (store : Store) (basePath entity_type project_id entity_id : String)
    (payload : PyRow) (user : String) (comment : Option String) (inferred : Schema)
    (now ts uid : String) : Except PyErr RepoResult × Store :=
  match ENTITY_TABLE_MAP entity_type with
  | none => (.error (.valueError ("Unknown entity type: " ++ entity_type)), store)
  | some table_name =>
    let record_id := project_id ++ "/" ++ entity_type ++ "/" ++ entity_id
    match read_metadata store record_id with
    | none =>
      (.error (.valueError ("Entity " ++ entity_type ++ " with id " ++ entity_id ++
        " not found in project " ++ project_id)), store)
    | some _existing =>
      let payload := row_setdefault payload "project_id" (.str project_id)
      match payload_to_dataframe payload table_name inferred with
      | .error e => (.error e, store)
      | .ok df =>
        match comment with
        | some c =>
          if c = "" then
            (.error (.unboundLocalError
              "local variable 'metadata' referenced before assignment"), store)
          else
            (match update_record store basePath record_id df user (some c) none now ts uid with
             | (.error e, store') => (.error e, store')
             | (.ok metadata, store') =>
               match get_latest_version store' basePath record_id with
               | none =>
                 (.error (.attributeError "'NoneType' object has no attribute 'empty'"), store')
               | some df_updated =>
                 (.ok { entity_type := entity_type
                        project_id := project_id
                        entity_id := entity_id
                        data_row := df_updated.rows.head?
                        current_version := metadata.current_version
                        status := metadata.status }, store'))
        | none =>
          (.error (.unboundLocalError
            "local variable 'metadata' referenced before assignment"), store)

/-- Embeds `LambdaHandler._handle_update`: missing required fields yield 400;
a ValueError from the repository yields 400; any other exception (including
UnboundLocalError and AttributeError) yields the 500 internal-server-error
response.  Returns the HTTP status code and the store afterwards. -/
def handle_update (store : Store) (basePath : String)
    (entity_type project_id entity_id : Option String) (payload : PyRow)
    (user : Option String) (comment : Option String) (inferred : Schema)
    (now ts uid : String) : Nat × Store :=
  if ¬ (py_truthy_str entity_type && py_truthy_str project_id
      && py_truthy_str entity_id && py_truthy_str user) then
    (400, store)
  else
    match repository_update store basePath (entity_type.getD "") (project_id.getD "")
        (entity_id.getD "") payload (user.getD "") comment inferred now ts uid with
    | (.ok _, store') => (200, store')
    | (.error (.valueError _), store') => (400, store')
    | (.error _, store') => (500, store')

/-- Fixture for the parse-worker idempotence claim: a payload naming project P,
borelog B, upload U, version 1, with the raw CSV at raw/borelog.csv. -/
def c7_payload : WorkerPayload :=
  { bucket := some "uploads-bucket"
    csvKey := some "raw/borelog.csv"
    key := none
    project_id := some "P"
    borelog_id := some "B"
    upload_id := some "U"
    version_no := some (Cell.int 1)
    fileType := some "csv"
    file_type := none
    structure_id := none
    substructure_id := none
    requestedBy := none
    requested_by := none }

/-- Fixture store in which the strata.json for c7_payload already exists. -/
def c7_s3 : S3Store :=
  [("projects/P/borelogs/B/parsed/v1/strata.json", S3Obj.raw [])]

/-- Fixture column map for the template-dialect depth-range extraction claim. -/
def c8_cmap : ColumnMap := [("description", 0), ("depth_from", 1), ("depth_to", 2)]

/-- Fixture dataframe for the repository-update claim: the one-row
`borelog_versions` frame `_payload_to_dataframe` builds from an empty payload
(project_id filled in by setdefault, every other column null). -/
def c9_df : Frame :=
  ⟨SCHEMA_BORELOG_VERSIONS,
   [SCHEMA_BORELOG_VERSIONS.map
     (fun f => (rowGet [("project_id", Cell.str "p1")] f.name).getD .null)]⟩

/-- Concrete creation of record `p1/borelog/b1` in table `borelog_versions`. -/
def c9_create : Except PyErr Metadata × Store :=
  create_record [] "parquet-data" "p1/borelog/b1" c9_df "borelog_versions" "u1" none
    (some SCHEMA_BORELOG_VERSIONS) "2024-01-01T00:00:00Z" "20240101_000000" "abcdef12"

/-- Store after `c9_create`. -/
def c9_store : Store := c9_create.2

/-- Metadata stored for `p1/borelog/b1` after creation. -/
def c9_mo : Metadata := (read_metadata c9_store "p1/borelog/b1").getD default

/-- Concrete successful `update_record` with comment "note" on `c9_store`. -/
def c9_upd : Except PyErr Metadata × Store :=
  update_record c9_store "parquet-data" "p1/borelog/b1" c9_df "u2" (some "note") none
    "2024-01-02T00:00:00Z" "20240102_000000" "bbbbcccc"

/-- Metadata returned by `c9_upd`. -/
def c9_m : Metadata := c9_upd.1.toOption.getD default

/-- Store after `c9_upd`: the v2 data file lives at a uuid-suffixed key. -/
def c9_store2 : Store := c9_upd.2

/-- Specification-side helper (not from the source): the position, offset by
`idx`, of the LAST stratum in the list whose range key is `k`, if any.  Used
only to characterize `build_depth_index`. -/
def last_key_idx : List Stratum → Nat → String → Option Nat
  | [], _, _ => none
  | s :: rest, idx, k =>
    match last_key_idx rest (idx + 1) k with
    | some j => some j
    | none => if stratum_range_key s = some k then some idx else none

/-- Fixture strata for the depth-index claim: two strata sharing the range
0.000-1.500 (ordinals 0 and 2) and one stratum with null depths carried by
description plus thickness alone (ordinal 1). -/
def c10_strata : List Stratum :=
  [ { description := "Silty sand", depth_from := some 0, depth_to := some (Rat.divInt 3 2)
      thickness := some (Rat.divInt 3 2), colour_of_return_water := none, water_loss := none
      diameter_of_borehole := none, remarks := none, tcr_percent := none, rqd_percent := none
      samples := [] }
  , { description := "Clay band", depth_from := none, depth_to := none
      thickness := some 1, colour_of_return_water := none, water_loss := none
      diameter_of_borehole := none, remarks := none, tcr_percent := none, rqd_percent := none
      samples := [] }
  , { description := "Silty sand repeated", depth_from := some 0
      depth_to := some (Rat.divInt 3 2)
      thickness := some (Rat.divInt 3 2), colour_of_return_water := none, water_loss := none
      diameter_of_borehole := none, remarks := none, tcr_percent := none, rqd_percent := none
      samples := [] }
  ]

end Infraclininc

namespace Infraclininc

/-- Writing a key and reading it back returns the written object. -/
theorem storeGet_storeSet_self (s : Store) (k : String) (v : Obj) :
    storeGet (storeSet s k v) k = some v := by
  induction s with
  | nil => simp [storeSet, storeGet]
  | cons hd tl ih =>
    by_cases h : hd.1 = k
    · simp [storeSet, storeGet, h]
    · simp [storeSet, storeGet, h, ih]

/-- Writing one key leaves every other key unchanged. -/
theorem storeGet_storeSet_ne (s : Store) (k k' : String) (v : Obj) (h : k ≠ k') :
    storeGet (storeSet s k v) k' = storeGet s k' := by
  induction s with
  | nil => simp [storeSet, storeGet, h]
  | cons hd tl ih =>
    by_cases hh : hd.1 = k
    · simp [storeSet, storeGet, hh, h]
    · simp [storeSet, storeGet, hh, ih]

/-- Appending strings is associative. -/
theorem string_append_assoc (a b c : String) : a ++ b ++ c = a ++ (b ++ c) := by
  cases a with | mk da => cases b with | mk db => cases c with | mk dc =>
  show String.mk (da ++ db ++ dc) = String.mk (da ++ (db ++ dc))
  rw [List.append_assoc]

/-- The two non-draft status constants are distinct. -/
theorem rejected_eq_approved_iff : (RecordStatus.rejected = RecordStatus.approved) ↔ False := by
  constructor
  · intro h; exact absurd h (by decide)
  · exact False.elim

/-- Approving a record whose metadata is already in a terminal status fails
before any store mutation. -/
theorem approve_blocked_of_status (store : Store) (rid user : String)
    (comment : Option String) (now : String) (m : Metadata)
    (hm : read_metadata store rid = some m)
    (hst : m.status = RecordStatus.approved ∨ m.status = RecordStatus.rejected) :
    (approve_record store rid user comment now).1.toOption = none
    ∧ (approve_record store rid user comment now).2 = store := by
  rcases hst with h | h
  · simp [approve_record, approve_record_with_meta, hm, h, Except.toOption]
  · have hna : m.status ≠ RecordStatus.approved := by rw [h]; decide
    simp [approve_record, approve_record_with_meta, hm, h, hna, Except.toOption,
      rejected_eq_approved_iff]

/-- Claim C1 (code_bug evidence): on the concrete failing input, a successful
`create_record` stores the version-1 data file at the generated key
`versions/v1_{timestamp}_{uuid}.parquet`, NOT at the fixed key
`versions/v1.parquet`, and consequently `get_specific_version(record_id, 1)`
and `get_latest_version(record_id)` both return `None` instead of the rows
just written: `write_parquet` appends the timestamp/uuid suffix to every
non-partitioned path, while the readers look up the fixed name. -/
theorem create_record_writes_uuid_key_and_breaks_readback :
    (c1_run.1.toOption.map Metadata.current_version = some 1)
    ∧ storeGet c1_run.2 "parquet-data/records/p1/borelog/b1/versions/v1.parquet" = none
    ∧ storeGet c1_run.2
        "parquet-data/records/p1/borelog/b1/versions/v1_20240101_000000_abcdef12.parquet"
        = some (.frame projFrame)
    ∧ get_specific_version c1_run.2 "parquet-data" "p1/borelog/b1" 1 = none
    ∧ get_latest_version c1_run.2 "parquet-data" "p1/borelog/b1" = none := by
  refine ⟨?_, ?_, ?_, ?_, ?_⟩ <;> decide

/-- Claim C2 (code_bug evidence): two `update_record` invocations that both
read `current_version = 1` before either writes do NOT collide on
`versions/v2.parquet`: because `write_parquet` suffixes every data-file key
with the invocation's timestamp and uuid token, the two racing writes land on
distinct keys, both invocations succeed, and no `FileExistsError`
(OverwriteForbidden) is ever raised. -/
theorem racing_updates_both_succeed_no_overwrite_collision :
    read_metadata c1_run.2 "p1/borelog/b1" = some c2_meta
    ∧ c2_meta.current_version = 1
    ∧ c2_first.1.toOption.isSome = true
    ∧ c2_second.1.toOption.isSome = true
    ∧ storeGet c2_second.2
        "parquet-data/records/p1/borelog/b1/versions/v2_20240102_000000_aaaaaaaa.parquet"
        = some (.frame projFrame2)
    ∧ storeGet c2_second.2
        "parquet-data/records/p1/borelog/b1/versions/v2_20240102_000001_bbbbbbbb.parquet"
        = some (.frame projFrame2) := by
  refine ⟨?_, ?_, ?_, ?_, ?_, ?_⟩ <;> decide

/-- Claim C3 (counterexample): reading back the written file at the very path
returned by `write_parquet` does not yield the written rows — it fails,
because `write_parquet` returns a path already prefixed with the engine's
base path and `read_parquet` prefixes the base path again. -/
theorem read_at_returned_path_fails :
    c3_run.1 = .ok "parquet-data/records/r1/versions/v1_20240103_000000_11112222.parquet"
    ∧ (read_parquet c3_run.2 "parquet-data"
        "parquet-data/records/r1/versions/v1_20240103_000000_11112222.parquet").toOption
        = none := by
  exact ⟨by decide, by decide⟩

/-- Claim C3 (amended): for a non-empty row set whose inferred schema
validates against schema(T), `write_parquet` succeeds, returns the generated
key prefixed with the engine's base path, and reading the written file back
at that key relative to the base path (the returned path with the leading
`{base_path}/` stripped) yields exactly the stored dataframe — same row
count, and every cell (numeric, string, or null) preserved. -/
theorem write_parquet_read_parquet_roundtrip_at_relative_key
    (store : Store) (basePath path ts uid : String) (df : Frame) (sch : Schema)
    (hrows : df.rows ≠ [])
    (hval : validate_schema df sch = .ok ())
    (hfresh : storeGet store (basePath ++ "/" ++ unique_rel_path path ts uid) = none)
    (hrel : lstripSlash (unique_rel_path path ts uid) = unique_rel_path path ts uid) :
    (write_parquet store basePath path df (some sch) none false ts uid).1
      = .ok (basePath ++ "/" ++ unique_rel_path path ts uid)
    ∧ read_parquet (write_parquet store basePath path df (some sch) none false ts uid).2
        basePath (unique_rel_path path ts uid) = .ok df := by
  have hne : df.rows.isEmpty = false := by
    cases hd : df.rows with
    | nil => exact absurd hd hrows
    | cons a l => simp [List.isEmpty]
  have hkey : generate_unique_path (basePath ++ "/" ++ pathParent path)
      (if pathStem path = "" then "data" else pathStem path) ts uid
      = basePath ++ "/" ++ unique_rel_path path ts uid := by
    simp only [generate_unique_path, unique_rel_path, string_append_assoc]
  have hw : write_parquet store basePath path df (some sch) none false ts uid
      = (.ok (basePath ++ "/" ++ unique_rel_path path ts uid),
         storeSet store (basePath ++ "/" ++ unique_rel_path path ts uid) (.frame df)) := by
    simp only [write_parquet, hne, hval, hkey, hfresh]
    simp
  refine ⟨by rw [hw], ?_⟩
  rw [hw]
  simp only [read_parquet, hrel, storeGet_storeSet_self]

/-- Witness for the amended claim C3, at the concrete inputs of `c3_run`. -/
theorem write_parquet_read_parquet_roundtrip_at_relative_key_witness :
    (projFrame.rows ≠ []
    ∧ validate_schema projFrame SCHEMA_PROJECTS = .ok ()
    ∧ storeGet ([] : Store)
        ("parquet-data" ++ "/" ++
          unique_rel_path "records/r1/versions/v1.parquet" "20240103_000000" "11112222") = none
    ∧ lstripSlash (unique_rel_path "records/r1/versions/v1.parquet" "20240103_000000" "11112222")
        = unique_rel_path "records/r1/versions/v1.parquet" "20240103_000000" "11112222")
    ∧ ((write_parquet [] "parquet-data" "records/r1/versions/v1.parquet" projFrame
          (some SCHEMA_PROJECTS) none false "20240103_000000" "11112222").1
        = .ok ("parquet-data" ++ "/" ++
            unique_rel_path "records/r1/versions/v1.parquet" "20240103_000000" "11112222")
      ∧ read_parquet (write_parquet [] "parquet-data" "records/r1/versions/v1.parquet" projFrame
          (some SCHEMA_PROJECTS) none false "20240103_000000" "11112222").2
          "parquet-data"
          (unique_rel_path "records/r1/versions/v1.parquet" "20240103_000000" "11112222")
        = .ok projFrame) :=
  ⟨⟨by decide, by decide, by decide, by decide⟩,
   write_parquet_read_parquet_roundtrip_at_relative_key [] "parquet-data"
     "records/r1/versions/v1.parquet" "20240103_000000" "11112222" projFrame SCHEMA_PROJECTS
     (by decide) (by decide) (by decide) (by decide)⟩

/-- Claim C4: approving a record whose status is already `approved` or is
`rejected` fails (ValueError, the IllegalTransition kind) and performs no
store mutation at all, so the history is not touched; in particular a second
`approve_record` immediately after a successful one fails and does not
double-append a history entry, leaving the metadata exactly as the first
approval wrote it. -/
theorem approve_record_illegal_transition_no_mutation :
    (∀ (store : Store) (rid user : String) (comment : Option String) (now : String)
       (m : Metadata), read_metadata store rid = some m →
       (m.status = RecordStatus.approved ∨ m.status = RecordStatus.rejected) →
       (approve_record store rid user comment now).1.toOption = none
       ∧ (approve_record store rid user comment now).2 = store)
    ∧ (∀ (store : Store) (rid u1 u2 : String) (cm1 cm2 : Option String) (n1 n2 : String)
       (m1 : Metadata) (s1 : Store),
       approve_record store rid u1 cm1 n1 = (.ok m1, s1) →
       (approve_record s1 rid u2 cm2 n2).1.toOption = none
       ∧ (approve_record s1 rid u2 cm2 n2).2 = s1) := by
  refine ⟨approve_blocked_of_status, ?_⟩
  intro store rid u1 u2 cm1 cm2 n1 n2 m1 s1 h
  unfold approve_record at h
  cases hm : read_metadata store rid with
  | none => rw [hm] at h; simp at h
  | some m =>
    rw [hm] at h
    have h' : approve_record_with_meta store rid m u1 cm1 n1 = (.ok m1, s1) := h
    unfold approve_record_with_meta at h'
    by_cases ha : m.status = RecordStatus.approved
    · rw [if_pos ha] at h'; simp at h'
    · rw [if_neg ha] at h'
      by_cases hr : m.status = RecordStatus.rejected
      · rw [if_pos hr] at h'; simp at h'
      · rw [if_neg hr] at h'
        simp only [Prod.mk.injEq, Except.ok.injEq] at h'
        obtain ⟨hmeq, hseq⟩ := h'
        have hread : read_metadata s1 rid = some m1 := by
          rw [← hseq, ← hmeq]
          simp [read_metadata, write_metadata, storeGet_storeSet_self]
        have hstat : m1.status = RecordStatus.approved := by
          rw [← hmeq]; simp [add_history_entry]
        exact approve_blocked_of_status s1 rid u2 cm2 n2 m1 hread (Or.inl hstat)

/-- Witness for claim C4: concrete approved store, and a concrete
approve-after-approve sequence. -/
theorem approve_record_illegal_transition_no_mutation_witness :
    ((approve_record c4_s1 "p1/borelog/b1" "u3" none "2024-01-03T00:00:00Z").1.toOption = none
      ∧ (approve_record c4_s1 "p1/borelog/b1" "u3" none "2024-01-03T00:00:00Z").2 = c4_s1)
    ∧ ((approve_record c4_s1 "p1/borelog/b1" "u4" none "2024-01-04T00:00:00Z").1.toOption = none
      ∧ (approve_record c4_s1 "p1/borelog/b1" "u4" none "2024-01-04T00:00:00Z").2 = c4_s1) :=
  ⟨approve_record_illegal_transition_no_mutation.1 c4_s1 "p1/borelog/b1" "u3" none
     "2024-01-03T00:00:00Z" c4_m (by decide) (Or.inl (by decide)),
   approve_record_illegal_transition_no_mutation.2 c1_run.2 "p1/borelog/b1" "u2" "u4" none none
     "2024-01-02T10:00:00Z" "2024-01-04T00:00:00Z" c4_m c4_s1 (by decide)⟩

/-- Claim C5: every successful mutating operation appends exactly one entry
at the end of the history list, leaving all existing entries in place
(`history' = history ++ [e]`), and the entry appended by
`approve_record`/`reject_record` carries version equal to current_version. -/
theorem mutating_ops_append_exactly_one_history_entry :
    (∀ (store : Store) (basePath rid : String) (df : Frame) (tn user : String)
       (comment : Option String) (es : Option Schema) (now ts uid : String)
       (m' : Metadata) (s' : Store),
       create_record store basePath rid df tn user comment es now ts uid = (.ok m', s') →
       ∃ e, m'.history = [e] ∧ e.version = 1 ∧ e.status = RecordStatus.draft
         ∧ m'.current_version = 1)
    ∧ (∀ (store : Store) (basePath rid : String) (df : Frame) (user : String)
       (comment : Option String) (es : Option Schema) (now ts uid : String)
       (m m' : Metadata) (s' : Store),
       read_metadata store rid = some m →
       update_record store basePath rid df user comment es now ts uid = (.ok m', s') →
       ∃ e, m'.history = m.history ++ [e] ∧ e.version = m.current_version + 1
         ∧ e.status = RecordStatus.draft ∧ m'.current_version = m.current_version + 1)
    ∧ (∀ (store : Store) (rid user : String) (comment : Option String) (now : String)
       (m m' : Metadata) (s' : Store),
       read_metadata store rid = some m →
       approve_record store rid user comment now = (.ok m', s') →
       ∃ e, m'.history = m.history ++ [e] ∧ e.version = m.current_version
         ∧ e.status = RecordStatus.approved ∧ m'.current_version = m.current_version)
    ∧ (∀ (store : Store) (rid user : String) (comment : Option String) (now : String)
       (m m' : Metadata) (s' : Store),
       read_metadata store rid = some m →
       reject_record store rid user comment now = (.ok m', s') →
       ∃ e, m'.history = m.history ++ [e] ∧ e.version = m.current_version
         ∧ e.status = RecordStatus.rejected ∧ m'.current_version = m.current_version) := by
  refine ⟨?_, ?_, ?_, ?_⟩
  · intro store basePath rid df tn user comment es now ts uid m' s' h
    unfold create_record at h
    cases hrm : read_metadata store rid with
    | some m => rw [hrm] at h; simp at h
    | none =>
    rw [hrm] at h
    have step :
        ∀ (sch : Schema),
          ((match validate_schema df sch with
            | Except.error e => (Except.error e, store)
            | Except.ok _ =>
              match write_parquet store basePath (get_version_file_path rid 1) df
                  (some sch) none false ts uid with
              | (Except.error e, store') => (Except.error e, store')
              | (Except.ok _, store') =>
                let metadata : Metadata :=
                  { record_id := rid, table_name := tn, current_version := 1,
                    status := RecordStatus.draft, created_by := user, created_at := now,
                    approved_by := none, approved_at := none, rejected_by := none,
                    rejected_at := none, history := [] }
                let metadata := add_history_entry metadata 1 RecordStatus.draft user
                  (some (pyOrStr comment "Initial creation")) now
                (Except.ok metadata, write_metadata store' rid metadata)) = (.ok m', s')) →
          ∃ e, m'.history = [e] ∧ e.version = 1 ∧ e.status = RecordStatus.draft
            ∧ m'.current_version = 1 := by
      intro sch hh
      cases hv : validate_schema df sch with
      | error e => rw [hv] at hh; simp at hh
      | ok u =>
        cases u
        rw [hv] at hh
        rcases hw : write_parquet store basePath (get_version_file_path rid 1) df
            (some sch) none false ts uid with ⟨w1, w2⟩
        rw [hw] at hh
        cases w1 with
        | error e => simp at hh
        | ok p =>
          simp only [Prod.mk.injEq, Except.ok.injEq] at hh
          obtain ⟨hmeq, hseq⟩ := hh
          subst hmeq
          refine ⟨⟨1, RecordStatus.draft, user, now,
            pyOrStr (some (pyOrStr comment "Initial creation")) ""⟩, ?_, rfl, rfl, rfl⟩
          simp [add_history_entry]
    cases es with
    | some sch => exact step sch h
    | none =>
      cases hg : get_schema tn with
      | none => rw [hg] at h; simp at h
      | some sch => rw [hg] at h; exact step sch h
  · intro store basePath rid df user comment es now ts uid m m' s' hm h
    unfold update_record at h
    rw [hm] at h
    have h' : update_record_with_meta store basePath rid m df user comment es now ts uid
        = (.ok m', s') := h
    unfold update_record_with_meta at h'
    have step :
        ∀ (sch : Schema),
          ((match validate_schema df sch with
            | Except.error e => (Except.error e, store)
            | Except.ok _ =>
              match write_parquet store basePath
                  (get_version_file_path rid (m.current_version + 1)) df
                  (some sch) none false ts uid with
              | (Except.error e, store') => (Except.error e, store')
              | (Except.ok _, store') =>
                let metadata := { m with
                  current_version := m.current_version + 1
                  status := RecordStatus.draft }
                let metadata := add_history_entry metadata (m.current_version + 1)
                  RecordStatus.draft user
                  (some (pyOrStr comment
                    ("Updated to version " ++ toString (m.current_version + 1)))) now
                (Except.ok metadata, write_metadata store' rid metadata)) = (.ok m', s')) →
          ∃ e, m'.history = m.history ++ [e] ∧ e.version = m.current_version + 1
            ∧ e.status = RecordStatus.draft ∧ m'.current_version = m.current_version + 1 := by
      intro sch hh
      cases hv : validate_schema df sch with
      | error e => rw [hv] at hh; simp at hh
      | ok u =>
        cases u
        rw [hv] at hh
        rcases hw : write_parquet store basePath
            (get_version_file_path rid (m.current_version + 1)) df
            (some sch) none false ts uid with ⟨w1, w2⟩
        rw [hw] at hh
        cases w1 with
        | error e => simp at hh
        | ok p =>
          simp only [Prod.mk.injEq, Except.ok.injEq] at hh
          obtain ⟨hmeq, hseq⟩ := hh
          subst hmeq
          refine ⟨⟨m.current_version + 1, RecordStatus.draft, user, now,
            pyOrStr (some (pyOrStr comment
              ("Updated to version " ++ toString (m.current_version + 1)))) ""⟩,
            ?_, rfl, rfl, rfl⟩
          simp [add_history_entry]
    cases es with
    | some sch => exact step sch h'
    | none =>
      by_cases htn : m.table_name = ""
      · rw [if_pos htn] at h'; simp at h'
      · rw [if_neg htn] at h'
        cases hg : get_schema m.table_name with
        | none => rw [hg] at h'; simp at h'
        | some sch => rw [hg] at h'; exact step sch h'
  · intro store rid user comment now m m' s' hm h
    unfold approve_record at h
    rw [hm] at h
    have h' : approve_record_with_meta store rid m user comment now = (.ok m', s') := h
    unfold approve_record_with_meta at h'
    by_cases ha : m.status = RecordStatus.approved
    · rw [if_pos ha] at h'; simp at h'
    · rw [if_neg ha] at h'
      by_cases hr : m.status = RecordStatus.rejected
      · rw [if_pos hr] at h'; simp at h'
      · rw [if_neg hr] at h'
        simp only [Prod.mk.injEq, Except.ok.injEq] at h'
        obtain ⟨hmeq, hseq⟩ := h'
        subst hmeq
        refine ⟨⟨m.current_version, RecordStatus.approved, user, now,
          pyOrStr (some (pyOrStr comment "Record approved")) ""⟩, ?_, rfl, rfl, rfl⟩
        simp [add_history_entry]
  · intro store rid user comment now m m' s' hm h
    unfold reject_record at h
    rw [hm] at h
    have h' : reject_record_with_meta store rid m user comment now = (.ok m', s') := h
    unfold reject_record_with_meta at h'
    by_cases ha : m.status = RecordStatus.approved
    · rw [if_pos ha] at h'; simp at h'
    · rw [if_neg ha] at h'
      by_cases hr : m.status = RecordStatus.rejected
      · rw [if_pos hr] at h'; simp at h'
      · rw [if_neg hr] at h'
        simp only [Prod.mk.injEq, Except.ok.injEq] at h'
        obtain ⟨hmeq, hseq⟩ := h'
        subst hmeq
        refine ⟨⟨m.current_version, RecordStatus.rejected, user, now,
          pyOrStr (some (pyOrStr comment "Record rejected")) ""⟩, ?_, rfl, rfl, rfl⟩
        simp [add_history_entry]

/-- Claim C6: when row-level validation leaves zero valid rows, CSV ingestion
performs no storage mutation (the store is returned unchanged, so no
create_record or update_record call and no version advance happened) and the
result carries only the counts and the accumulated per-row errors, with no
version and no file path. -/
theorem csv_ingest_zero_valid_rows_no_mutation (store : Store) (basePath : String)
    (rows : List PyRow) (table_name pid etype eid user : String)
    (comment : Option String) (skip : Bool) (inferred : Schema) (now ts uid : String)
    (schema : Schema)
    (hs : get_schema table_name = some schema)
    (hv : (validate_and_separate_rows rows schema skip).1 = []) :
    ingest_rows store basePath rows table_name pid etype eid user comment skip inferred
      now ts uid
      = (.ok ⟨rows.length, 0, (validate_and_separate_rows rows schema skip).2.1.length,
          (validate_and_separate_rows rows schema skip).2.2,
          some (pid ++ "/" ++ etype ++ "/" ++ eid), none, none⟩, store) := by
  by_cases h0 : rows.length = 0
  · have : rows = [] := List.length_eq_zero.mp h0
    subst this
    simp [ingest_rows, hs, validate_and_separate_rows, validate_rows_aux]
  · simp [ingest_rows, hs, h0, hv]

/-- Witness for claim C6: a one-row batch whose row fails the non-nullable
check, ingested into an empty store. -/
theorem csv_ingest_zero_valid_rows_no_mutation_witness :
    (get_schema "projects" = some SCHEMA_PROJECTS
    ∧ (validate_and_separate_rows c6_rows SCHEMA_PROJECTS true).1 = [])
    ∧ ingest_rows [] "parquet-data" c6_rows "projects" "p1" "borelog" "b1" "u1" none true
        SCHEMA_PROJECTS "2024-01-01T00:00:00Z" "20240101_000000" "abcdef12"
      = (.ok ⟨c6_rows.length, 0,
          (validate_and_separate_rows c6_rows SCHEMA_PROJECTS true).2.1.length,
          (validate_and_separate_rows c6_rows SCHEMA_PROJECTS true).2.2,
          some ("p1" ++ "/" ++ "borelog" ++ "/" ++ "b1"), none, none⟩, []) :=
  ⟨⟨by decide, by decide⟩,
   csv_ingest_zero_valid_rows_no_mutation [] "parquet-data" c6_rows "projects" "p1" "borelog"
     "b1" "u1" none true SCHEMA_PROJECTS "2024-01-01T00:00:00Z" "20240101_000000" "abcdef12"
     SCHEMA_PROJECTS (by decide) (by decide)⟩

/-- Witness for claim C5: the four history-growth statements applied to the
concrete create / update / approve / reject runs. -/
theorem mutating_ops_append_exactly_one_history_entry_witness :
    (∃ e, c1_meta.history = [e] ∧ e.version = 1 ∧ e.status = RecordStatus.draft
      ∧ c1_meta.current_version = 1)
    ∧ (∃ e, c5_upd_m.history = c2_meta.history ++ [e] ∧ e.version = c2_meta.current_version + 1
      ∧ e.status = RecordStatus.draft ∧ c5_upd_m.current_version = c2_meta.current_version + 1)
    ∧ (∃ e, c4_m.history = c2_meta.history ++ [e] ∧ e.version = c2_meta.current_version
      ∧ e.status = RecordStatus.approved ∧ c4_m.current_version = c2_meta.current_version)
    ∧ (∃ e, c5_rej_m.history = c2_meta.history ++ [e] ∧ e.version = c2_meta.current_version
      ∧ e.status = RecordStatus.rejected ∧ c5_rej_m.current_version = c2_meta.current_version) :=
  ⟨mutating_ops_append_exactly_one_history_entry.1 [] "parquet-data" "p1/borelog/b1" projFrame
     "projects" "u1" none (some SCHEMA_PROJECTS) "2024-01-01T00:00:00Z" "20240101_000000"
     "abcdef12" c1_meta c1_run.2 (by decide),
   mutating_ops_append_exactly_one_history_entry.2.1 c1_run.2 "parquet-data" "p1/borelog/b1"
     projFrame2 "u2" none (some SCHEMA_PROJECTS) "2024-01-02T00:00:00Z" "20240102_000000"
     "aaaaaaaa" c2_meta c5_upd_m c5_upd.2 (by decide) (by decide),
   mutating_ops_append_exactly_one_history_entry.2.2.1 c1_run.2 "p1/borelog/b1" "u2" none
     "2024-01-02T10:00:00Z" c2_meta c4_m c4_s1 (by decide) (by decide),
   mutating_ops_append_exactly_one_history_entry.2.2.2 c1_run.2 "p1/borelog/b1" "u2" none
     "2024-01-02T10:00:00Z" c2_meta c5_rej_m c5_rej.2 (by decide) (by decide)⟩

/-- Helper: after stripping leading whitespace and then trailing whitespace,
stripping leading whitespace again changes nothing. -/
theorem dropWhile_rdropWhile_dropWhile (l : List Char) :
    List.dropWhile Char.isWhitespace
      (List.rdropWhile Char.isWhitespace (List.dropWhile Char.isWhitespace l))
    = List.rdropWhile Char.isWhitespace (List.dropWhile Char.isWhitespace l) := by
  obtain ⟨t, ht⟩ := List.rdropWhile_prefix Char.isWhitespace
    (l := List.dropWhile Char.isWhitespace l)
  cases hD : List.rdropWhile Char.isWhitespace (List.dropWhile Char.isWhitespace l) with
  | nil => simp
  | cons a d' =>
    rw [hD] at ht
    have hr : List.dropWhile Char.isWhitespace l = a :: (d' ++ t) := by
      rw [← ht]; simp
    have h0 : 0 < (List.dropWhile Char.isWhitespace l).length := by
      rw [hr]; simp
    have hna := List.dropWhile_get_zero_not Char.isWhitespace l h0
    have hpa : Char.isWhitespace a = false := by
      have hget : (List.dropWhile Char.isWhitespace l).get ⟨0, h0⟩ = a := by
        simp [hr]
      rw [hget] at hna
      exact Bool.not_eq_true _ ▸ (by simpa using hna)
    simp [List.dropWhile_cons, hpa]

/-- Python str.strip is idempotent. -/
theorem py_strip_idem (s : String) : py_strip (py_strip s) = py_strip s := by
  show String.mk (List.rdropWhile Char.isWhitespace (List.dropWhile Char.isWhitespace
    (List.rdropWhile Char.isWhitespace (List.dropWhile Char.isWhitespace s.data))))
    = String.mk (List.rdropWhile Char.isWhitespace (List.dropWhile Char.isWhitespace s.data))
  rw [dropWhile_rdropWhile_dropWhile, List.rdropWhile_idempotent]

/-- Claim C7: when an object already exists at the derived strata_key, the
parse worker returns status SKIPPED pointing at the existing strata/index keys,
leaves the object store untouched, and performs no effects at all (no download,
no parse, no put). -/
theorem parse_worker_skips_when_strata_exists (s3 : S3Store) (defaultBucket : String)
    (p : WorkerPayload) (now k : String)
    (hb : ¬ pyOrStr p.bucket defaultBucket = "")
    (hk : py_or_opt p.csvKey p.key = some k)
    (hkne : ¬ k = "")
    (hids : (py_truthy_str p.project_id && py_truthy_str p.borelog_id
      && py_truthy_str p.upload_id) = true)
    (hex : (pydict_get s3 (worker_strata_key p)).isSome = true) :
    process_payload s3 defaultBucket p now
      = (.ok ⟨"SKIPPED", none, some (worker_strata_key p), some (worker_index_key p)⟩,
         s3, []) := by
  simp [process_payload, hb, hk, hkne, hids, hex]

theorem parse_worker_skips_when_strata_exists_witness :
    (¬ pyOrStr c7_payload.bucket "" = ""
    ∧ py_or_opt c7_payload.csvKey c7_payload.key = some "raw/borelog.csv"
    ∧ ¬ ("raw/borelog.csv" : String) = ""
    ∧ (py_truthy_str c7_payload.project_id && py_truthy_str c7_payload.borelog_id
        && py_truthy_str c7_payload.upload_id) = true
    ∧ (pydict_get c7_s3 (worker_strata_key c7_payload)).isSome = true)
    ∧ process_payload c7_s3 "" c7_payload "2024-01-05T00:00:00+00:00"
      = (.ok ⟨"SKIPPED", none, some (worker_strata_key c7_payload),
          some (worker_index_key c7_payload)⟩, c7_s3, []) :=
  ⟨⟨by decide, by decide, by decide, by decide, by decide⟩,
   parse_worker_skips_when_strata_exists c7_s3 "" c7_payload "2024-01-05T00:00:00+00:00"
     "raw/borelog.csv" (by decide) (by decide) (by decide) (by decide) (by decide)⟩

/-- Counterexample to claim C8 as stated: for the row whose description is
"Dense 1.5-3.0 m sand" with empty From/To cells, the parser extracts
depth_from = 1.5 and depth_to = 3.0, but the resulting description is "Dense":
only the text BEFORE the embedded range is kept, and the trailing text
"sand" is discarded, contradicting "keeping the remaining description text". -/
theorem template_range_extraction_truncates_description :
    ((build_template_strata [["Dense 1.5-3.0 m sand", "", ""]] c8_cmap).map
        Stratum.depth_from = [some (Rat.divInt 3 2)]) ∧
    ((build_template_strata [["Dense 1.5-3.0 m sand", "", ""]] c8_cmap).map
        Stratum.depth_to = [some 3]) ∧
    ((build_template_strata [["Dense 1.5-3.0 m sand", "", ""]] c8_cmap).map
        Stratum.description = ["Dense"]) ∧
    ((build_template_strata [["Dense 1.5-3.0 m sand", "", ""]] c8_cmap).map
        Stratum.description ≠ ["Dense sand"]) ∧
    ((build_template_strata [["Dense 1.5-3.0 m sand", "", ""]] c8_cmap).map
        Stratum.description ≠ ["Dense  sand"]) := by
  decide

/-- Claim C8 (amended): in template parsing, a single stratum row with
already-stripped non-empty description desc, empty From/To cells, and a
depth range match at character index i giving bounds a and b, produces one
stratum with depth_from = a, depth_to = b, thickness computed from them, and
description equal to the stripped text BEFORE the range (or the whole
description if that prefix strips to empty); text after the range is dropped. -/
theorem template_embedded_depth_range_extraction (desc : String) (i : Nat) (a b : ℚ)
    (hstrip : py_strip desc = desc)
    (hne : desc ≠ "")
    (hfoot : is_template_footer [desc, "", ""] = false)
    (hsub : is_sub_header_row [desc, "", ""] = false)
    (hsearch : depth_range_search desc.data 0 = some (i, a, b)) :
    build_template_strata [[desc, "", ""]] c8_cmap
      = [{ description := if py_strip ⟨desc.data.take i⟩ = "" then desc
             else py_strip ⟨desc.data.take i⟩
           depth_from := some a
           depth_to := some b
           thickness := some (calculate_thickness a b)
           colour_of_return_water := none
           water_loss := none
           diameter_of_borehole := none
           remarks := none
           tcr_percent := none
           rqd_percent := none
           samples := [] }] := by
  have hb : (desc == "") = false := by simp [hne]
  have hnorm : normalize_row [desc, "", ""] = [desc, "", ""] := by
    simp [normalize_row, hstrip, show py_strip "" = "" from rfl]
  have hmean : has_meaningful_data [desc, "", ""] = true := by
    simp [has_meaningful_data, hne]
  have hdesc0 : value_from_row [desc, "", ""] (pydict_get c8_cmap "description")
      = some desc := by
    simp [c8_cmap, pydict_get, value_from_row, hstrip, hne]
  have hdf0 : value_from_row [desc, "", ""] (pydict_get c8_cmap "depth_from") = none := rfl
  have hdt0 : value_from_row [desc, "", ""] (pydict_get c8_cmap "depth_to") = none := rfl
  have hth0 : value_from_row [desc, "", ""] (pydict_get c8_cmap "thickness") = none := rfl
  have hrw0 : value_from_row [desc, "", ""] (pydict_get c8_cmap "return_water_colour")
      = none := rfl
  have hwl0 : value_from_row [desc, "", ""] (pydict_get c8_cmap "water_loss") = none := rfl
  have hbd0 : value_from_row [desc, "", ""] (pydict_get c8_cmap "borehole_diameter")
      = none := rfl
  have hrm0 : value_from_row [desc, "", ""] (pydict_get c8_cmap "remarks") = none := rfl
  have htc0 : value_from_row [desc, "", ""] (pydict_get c8_cmap "tcr_percent") = none := rfl
  have hrq0 : value_from_row [desc, "", ""] (pydict_get c8_cmap "rqd_percent") = none := rfl
  have hsample : build_sample_from_template_row [desc, "", ""] c8_cmap = none := rfl
  unfold build_template_strata build_template_strata_aux
  rw [hnorm]
  by_cases hc : py_strip ⟨desc.data.take i⟩ = ""
  · simp only [hmean, hfoot, hsub, hdesc0, hdf0, hdt0, hth0, hrw0, hwl0, hbd0, hrm0,
      htc0, hrq0, hsample, hsearch]
    simp [safe_number, safe_string, hc, hstrip, hne, build_template_strata_aux]
  · simp only [hmean, hfoot, hsub, hdesc0, hdf0, hdt0, hth0, hrw0, hwl0, hbd0, hrm0,
      htc0, hrq0, hsample, hsearch]
    have hidem := py_strip_idem ⟨desc.data.take i⟩
    simp [safe_number, safe_string, hc, hidem, build_template_strata_aux]

theorem template_embedded_depth_range_extraction_witness :
    build_template_strata [["Dense 1.5-3.0 m sand", "", ""]] c8_cmap
      = [{ description := "Dense"
           depth_from := some (Rat.divInt 3 2)
           depth_to := some 3
           thickness := some (Rat.divInt 3 2)
           colour_of_return_water := none
           water_loss := none
           diameter_of_borehole := none
           remarks := none
           tcr_percent := none
           rqd_percent := none
           samples := [] }] := by
  have h := template_embedded_depth_range_extraction "Dense 1.5-3.0 m sand" 6
    (Rat.divInt 3 2) 3 (by decide) (by decide) (by decide) (by decide) (by decide)
  rw [h]; decide

/-- Claim C9 (amended): on an existing record, `ParquetRepository.update` with
comment omitted (None or empty) raises UnboundLocalError while evaluating the
default-comment f-string, before `update_record` runs, leaving the store
unchanged, and the dispatcher maps it to a 500 response rather than 400.  An
update with a non-empty comment does NOT succeed either: the new version is
written (the store advances to store'), but the read-back of the latest
version returns None (the data file sits at a uuid-suffixed key), so
`_dataframe_to_dict(None)` raises AttributeError, again surfacing as 500. -/
theorem repository_update_comment_paths (store : Store) (basePath et pid eid : String) (payload : PyRow)
    (user : String) (inferred : Schema) (now ts uid : String) (tn : String)
    (mo : Metadata) (df : Frame) (c : String) (m' : Metadata) (store' : Store)
    (hmap : ENTITY_TABLE_MAP et = some tn)
    (hmeta : read_metadata store (pid ++ "/" ++ et ++ "/" ++ eid) = some mo)
    (hdf : payload_to_dataframe (row_setdefault payload "project_id" (.str pid)) tn
      inferred = .ok df)
    (het : ¬ et = "") (hpid : ¬ pid = "") (heid : ¬ eid = "") (huser : ¬ user = "")
    (hc : ¬ c = "")
    (hupd : update_record store basePath (pid ++ "/" ++ et ++ "/" ++ eid) df user
      (some c) none now ts uid = (.ok m', store'))
    (hlat : get_latest_version store' basePath (pid ++ "/" ++ et ++ "/" ++ eid) = none) :
    (∀ comment : Option String, comment = none ∨ comment = some "" →
      repository_update store basePath et pid eid payload user comment inferred now ts uid
        = (.error (.unboundLocalError
            "local variable 'metadata' referenced before assignment"), store)) ∧
    (∀ comment : Option String, comment = none ∨ comment = some "" →
      handle_update store basePath (some et) (some pid) (some eid) payload (some user)
        comment inferred now ts uid = (500, store)) ∧
    repository_update store basePath et pid eid payload user (some c) inferred now ts uid
      = (.error (.attributeError "'NoneType' object has no attribute 'empty'"), store') ∧
    handle_update store basePath (some et) (some pid) (some eid) payload (some user)
      (some c) inferred now ts uid = (500, store') := by
  have hA : ∀ comment : Option String, comment = none ∨ comment = some "" →
      repository_update store basePath et pid eid payload user comment inferred now ts uid
        = (.error (.unboundLocalError
            "local variable 'metadata' referenced before assignment"), store) := by
    intro comment hcm
    rcases hcm with h | h <;> subst h <;> simp [repository_update, hmap, hmeta, hdf]
  have hC : repository_update store basePath et pid eid payload user (some c) inferred
      now ts uid
      = (.error (.attributeError "'NoneType' object has no attribute 'empty'"), store') := by
    simp [repository_update, hmap, hmeta, hdf, hc, hupd, hlat]
  refine ⟨hA, ?_, hC, ?_⟩
  · intro comment hcm
    have h := hA comment hcm
    simp [handle_update, het, hpid, heid, huser, py_truthy_str, h]
  · simp [handle_update, het, hpid, heid, huser, py_truthy_str, hC]

theorem repository_update_comment_paths_witness :
    (ENTITY_TABLE_MAP "borelog" = some "borelog_versions"
    ∧ read_metadata c9_store "p1/borelog/b1" = some c9_mo
    ∧ payload_to_dataframe (row_setdefault [] "project_id" (.str "p1"))
        "borelog_versions" SCHEMA_BORELOG_VERSIONS = .ok c9_df
    ∧ ¬ ("borelog" : String) = "" ∧ ¬ ("p1" : String) = ""
    ∧ ¬ ("b1" : String) = "" ∧ ¬ ("u2" : String) = "" ∧ ¬ ("note" : String) = ""
    ∧ update_record c9_store "parquet-data" "p1/borelog/b1" c9_df "u2" (some "note")
        none "2024-01-02T00:00:00Z" "20240102_000000" "bbbbcccc" = (.ok c9_m, c9_store2)
    ∧ get_latest_version c9_store2 "parquet-data" "p1/borelog/b1" = none)
    ∧ (repository_update c9_store "parquet-data" "borelog" "p1" "b1" [] "u2" none
        SCHEMA_BORELOG_VERSIONS "2024-01-02T00:00:00Z" "20240102_000000" "bbbbcccc"
        = (.error (.unboundLocalError
            "local variable 'metadata' referenced before assignment"), c9_store)
    ∧ handle_update c9_store "parquet-data" (some "borelog") (some "p1") (some "b1") []
        (some "u2") none SCHEMA_BORELOG_VERSIONS "2024-01-02T00:00:00Z"
        "20240102_000000" "bbbbcccc" = (500, c9_store)
    ∧ repository_update c9_store "parquet-data" "borelog" "p1" "b1" [] "u2" (some "note")
        SCHEMA_BORELOG_VERSIONS "2024-01-02T00:00:00Z" "20240102_000000" "bbbbcccc"
        = (.error (.attributeError "'NoneType' object has no attribute 'empty'"), c9_store2)
    ∧ handle_update c9_store "parquet-data" (some "borelog") (some "p1") (some "b1") []
        (some "u2") (some "note") SCHEMA_BORELOG_VERSIONS "2024-01-02T00:00:00Z"
        "20240102_000000" "bbbbcccc" = (500, c9_store2)) := by
  have h := repository_update_comment_paths c9_store "parquet-data" "borelog" "p1" "b1" [] "u2"
    SCHEMA_BORELOG_VERSIONS "2024-01-02T00:00:00Z" "20240102_000000" "bbbbcccc"
    "borelog_versions" c9_mo c9_df "note" c9_m c9_store2
    rfl rfl rfl (by decide) (by decide) (by decide) (by decide) (by decide) rfl rfl
  exact ⟨⟨rfl, rfl, rfl, by decide, by decide, by decide, by decide, by decide, rfl, rfl⟩,
    h.1 none (Or.inl rfl), h.2.1 none (Or.inl rfl), h.2.2.1, h.2.2.2⟩

/-- Counterexample to claim C9 as stated: the update with the explicit
non-empty comment "note" does not succeed; it raises AttributeError and the
dispatcher returns 500. -/
theorem update_with_nonempty_comment_still_fails :
    (repository_update c9_store "parquet-data" "borelog" "p1" "b1" [] "u2" (some "note")
        SCHEMA_BORELOG_VERSIONS "2024-01-02T00:00:00Z" "20240102_000000" "bbbbcccc").1
      = .error (.attributeError "'NoneType' object has no attribute 'empty'")
    ∧ (handle_update c9_store "parquet-data" (some "borelog") (some "p1") (some "b1") []
        (some "u2") (some "note") SCHEMA_BORELOG_VERSIONS "2024-01-02T00:00:00Z"
        "20240102_000000" "bbbbcccc").1 = 500 :=
  ⟨rfl, rfl⟩

theorem pydict_get_insert {κ α : Type} [DecidableEq κ] (d : List (κ × α)) (k k' : κ)
    (v : α) :
    pydict_get (pydict_insert d k v) k' = if k = k' then some v else pydict_get d k' := by
  induction d with
  | nil => by_cases h : k = k' <;> simp [pydict_insert, pydict_get, h]
  | cons hd tl ih =>
    obtain ⟨k0, v0⟩ := hd
    by_cases h0 : k0 = k
    · subst h0
      by_cases h : k0 = k' <;> simp [pydict_insert, pydict_get, h]
    · by_cases h : k0 = k'
      · subst h
        simp [pydict_insert, pydict_get, h0, Ne.symm h0]
      · simp [pydict_insert, pydict_get, h0, h, ih]

theorem build_depth_index_go_get (strata : List Stratum) (idx : Nat)
    (d : List (String × Nat)) (k : String) :
    pydict_get (build_depth_index_go strata idx d) k
      = match last_key_idx strata idx k with
        | some j => some j
        | none => pydict_get d k := by
  induction strata generalizing idx d with
  | nil => simp [build_depth_index_go, last_key_idx]
  | cons s rest ih =>
    cases hks : stratum_range_key s with
    | none =>
      simp only [build_depth_index_go, last_key_idx, hks, ih]
      cases last_key_idx rest (idx + 1) k <;> simp
    | some k' =>
      simp only [build_depth_index_go, last_key_idx, hks, ih]
      cases h : last_key_idx rest (idx + 1) k with
      | some j => simp
      | none =>
        simp only [pydict_get_insert]
        by_cases hkk : k' = k <;> simp [hkk]

theorem last_key_idx_none_iff (strata : List Stratum) (idx : Nat) (k : String) :
    last_key_idx strata idx k = none ↔
      ∀ j s, strata.get? j = some s → stratum_range_key s ≠ some k := by
  induction strata generalizing idx with
  | nil => simp [last_key_idx]
  | cons s rest ih =>
    simp only [last_key_idx]
    cases hrest : last_key_idx rest (idx + 1) k with
    | some j =>
      constructor
      · intro h; exact absurd h (by simp)
      · intro h
        exfalso
        have hnone : last_key_idx rest (idx + 1) k = none :=
          (ih (idx + 1)).mpr (fun j' s' hj' => h (j' + 1) s' (by simpa using hj'))
        rw [hrest] at hnone
        exact absurd hnone (by simp)
    | none =>
      by_cases hks : stratum_range_key s = some k
      · simp only [if_pos hks]
        constructor
        · intro h; exact absurd h (by simp)
        · intro h; exact absurd hks (h 0 s rfl)
      · simp only [if_neg hks]
        constructor
        · intro _ j t hj
          cases j with
          | zero =>
            have hts : s = t := by simpa using hj
            rw [← hts]; exact hks
          | succ j' => exact (ih (idx + 1)).mp hrest j' t (by simpa using hj)
        · intro _; trivial

theorem last_key_idx_some_iff (strata : List Stratum) (idx : Nat) (k : String) (n : Nat) :
    last_key_idx strata idx k = some n ↔
      ∃ m, n = idx + m ∧
        (∃ s, strata.get? m = some s ∧ stratum_range_key s = some k) ∧
        (∀ j s, m < j → strata.get? j = some s → stratum_range_key s ≠ some k) := by
  induction strata generalizing idx n with
  | nil => simp [last_key_idx]
  | cons s rest ih =>
    constructor
    · intro h
      simp only [last_key_idx] at h
      cases hrest : last_key_idx rest (idx + 1) k with
      | some j =>
        rw [hrest] at h
        have hjn : j = n := by simpa using h
        obtain ⟨m, hm, ⟨s', hs', hks'⟩, hafter⟩ := (ih (idx + 1) j).mp hrest
        refine ⟨m + 1, by omega, ⟨s', by simpa using hs', hks'⟩, ?_⟩
        intro j' t hj' ht
        cases j' with
        | zero => omega
        | succ j'' => exact hafter j'' t (by omega) (by simpa using ht)
      | none =>
        rw [hrest] at h
        by_cases hks : stratum_range_key s = some k
        · rw [if_pos hks] at h
          have hn : idx = n := by simpa using h
          refine ⟨0, by omega, ⟨s, rfl, hks⟩, ?_⟩
          intro j t hj ht
          cases j with
          | zero => omega
          | succ j' =>
            exact (last_key_idx_none_iff rest (idx + 1) k).mp hrest j' t
              (by simpa using ht)
        · rw [if_neg hks] at h
          exact absurd h (by simp)
    · intro hex
      obtain ⟨m, hm, ⟨s', hs', hks'⟩, hafter⟩ := hex
      simp only [last_key_idx]
      cases hrest : last_key_idx rest (idx + 1) k with
      | some j =>
        obtain ⟨m', hm', ⟨s'', hs'', hks''⟩, hafter'⟩ := (ih (idx + 1) j).mp hrest
        cases m with
        | zero =>
          exfalso
          exact hafter (m' + 1) s'' (by omega) (by simpa using hs'') hks''
        | succ m0 =>
          have hs0 : rest.get? m0 = some s' := by simpa using hs'
          have hle1 : ¬ m0 < m' := by
            intro hlt
            exact hafter (m' + 1) s'' (by omega) (by simpa using hs'') hks''
          have hle2 : ¬ m' < m0 := by
            intro hlt
            exact hafter' m0 s' hlt hs0 hks'
          have hmm : m0 = m' := by omega
          subst hmm
          simp only [Option.some.injEq]
          omega
      | none =>
        cases m with
        | zero =>
          have hss : s = s' := by simpa using hs'
          subst hss
          rw [if_pos hks']
          simp only [Option.some.injEq]
          omega
        | succ m0 =>
          exfalso
          exact (last_key_idx_none_iff rest (idx + 1) k).mp hrest m0 s'
            (by simpa using hs') hks'

theorem stratum_range_key_some_isSome (s : Stratum) (k : String)
    (h : stratum_range_key s = some k) :
    s.depth_from.isSome = true ∧ s.depth_to.isSome = true := by
  cases hf : s.depth_from with
  | none => rw [stratum_range_key, hf] at h; cases h
  | some a =>
    cases ht : s.depth_to with
    | none => rw [stratum_range_key, hf, ht] at h; cases h
    | some b => simp [hf, ht]

/-- Claim C10: a key maps to ordinal n in the depth index exactly when the
stratum at n has both depths non-null with that formatted range key and no
later stratum formats to the same key (Python dict assignment: the later
stratum wins); consequently a stratum with either depth null (accepted from
description plus thickness alone) has no entry pointing at its ordinal. -/
theorem depth_index_complete_ranges_and_later_stratum_wins (strata : List Stratum) (k : String) (n : Nat) :
    (pydict_get (build_depth_index strata) k = some n ↔
      (∃ s, strata.get? n = some s ∧ s.depth_from.isSome = true ∧ s.depth_to.isSome = true
        ∧ stratum_range_key s = some k) ∧
      (∀ j s, n < j → strata.get? j = some s → stratum_range_key s ≠ some k)) ∧
    (∀ s, strata.get? n = some s → s.depth_from = none ∨ s.depth_to = none →
      pydict_get (build_depth_index strata) k ≠ some n) := by
  have hget : pydict_get (build_depth_index strata) k = last_key_idx strata 0 k := by
    rw [build_depth_index, build_depth_index_go_get]
    cases last_key_idx strata 0 k <;> simp [pydict_get]
  have hiff : pydict_get (build_depth_index strata) k = some n ↔
      (∃ s, strata.get? n = some s ∧ s.depth_from.isSome = true ∧ s.depth_to.isSome = true
        ∧ stratum_range_key s = some k) ∧
      (∀ j s, n < j → strata.get? j = some s → stratum_range_key s ≠ some k) := by
    rw [hget, last_key_idx_some_iff]
    constructor
    · intro hex
      obtain ⟨m, hm, ⟨s', hs', hks'⟩, hafter⟩ := hex
      have hmn : m = n := by omega
      subst hmn
      obtain ⟨h1, h2⟩ := stratum_range_key_some_isSome s' k hks'
      exact ⟨⟨s', hs', h1, h2, hks'⟩, hafter⟩
    · intro hand
      obtain ⟨⟨s', hs', _, _, hks'⟩, hafter⟩ := hand
      exact ⟨n, by omega, ⟨s', hs', hks'⟩, hafter⟩
  refine ⟨hiff, ?_⟩
  intro s hs hnull heq
  obtain ⟨⟨s', hs', h1, h2, _⟩, _⟩ := hiff.mp heq
  rw [hs] at hs'
  have hss : s = s' := by simpa using hs'
  subst hss
  rcases hnull with h | h
  · rw [h] at h1; cases h1
  · rw [h] at h2; cases h2

theorem depth_index_complete_ranges_and_later_stratum_wins_witness :
    pydict_get (build_depth_index c10_strata) "0.000-1.500" = some 2
    ∧ pydict_get (build_depth_index c10_strata) "0.000-1.500" ≠ some 1 := by
  constructor
  · refine (depth_index_complete_ranges_and_later_stratum_wins c10_strata "0.000-1.500" 2).1.mpr ⟨⟨c10_strata.get ⟨2, by decide⟩,
      by decide, by decide, by decide, by decide⟩, ?_⟩
    intro j s hj hs
    have hnone : c10_strata.get? j = none := by
      apply List.get?_eq_none.mpr
      simp only [c10_strata]
      simp
      omega
    rw [hnone] at hs
    cases hs
  · exact (depth_index_complete_ranges_and_later_stratum_wins c10_strata "0.000-1.500" 1).2
      (c10_strata.get ⟨1, by decide⟩) (by decide) (Or.inl (by decide))

end Infraclininc
